import Mathlib

/-!
# Verification of the AMD-OneClick sandbox lifecycle manager

Shallow embedding of `app/k8s_client.py`, `app/config.py` and `app/models.py`
(the sandbox lifecycle manager of the AMD-OneClick repository), together with
theorems settling the specification claims about identity derivation, resource
preset resolution, status normalization, deletion, reclamation and forking.

Conventions of the embedding:
* Python dictionaries become association lists (`List (String × String)`).
* Kubernetes API calls become pure functions over an explicit `ClusterState`;
  a call that raises `ApiException(404)` becomes an `Except`/`Option` value.
* `hashlib.md5(...).hexdigest()` is implemented bit-faithfully below on
  byte lists (32-bit words are `Nat` values reduced modulo `2 ^ 32`).
* `datetime` values become integer epoch seconds; the float comparisons
  `seconds / 60 >= minutes` and `minutes / 60 >= hours` of the source are
  carried out as the exactly equivalent integer comparisons
  `seconds >= 60 * minutes` / `minutes >= 60 * hours` (the float rounding
  error of a division by 60 is far below the distance to the next integer
  threshold, so the two predicates agree); theorems restate them as exact
  `ℚ` divisions where the claim speaks of hours/minutes ratios.
-/

set_option maxRecDepth 100000

namespace OneClick

/-! ## 32-bit word helpers (words are `Nat` values `< 2 ^ 32`) -/

/-- Bitwise AND of the low `f` bits of two naturals, by explicit fuel
recursion (so that kernel evaluation uses only accelerated `Nat` ops). -/
def and2 : Nat → Nat → Nat → Nat
  | 0, _, _ => 0
  | f + 1, a, b => (a % 2) * (b % 2) + 2 * and2 f (a / 2) (b / 2)

/-- Bitwise XOR of the low `f` bits of two naturals. -/
def xor2 : Nat → Nat → Nat → Nat
  | 0, _, _ => 0
  | f + 1, a, b => (a % 2 + b % 2) % 2 + 2 * xor2 f (a / 2) (b / 2)

/-- 32-bit bitwise AND. -/
def land32 (a b : Nat) : Nat := and2 32 a b

/-- 32-bit bitwise XOR. -/
def lxor32 (a b : Nat) : Nat := xor2 32 a b

/-- 32-bit bitwise complement (argument reduced modulo `2 ^ 32`). -/
def lnot32 (a : Nat) : Nat := 4294967295 - a % 4294967296

/-- 32-bit bitwise OR, via `a ∨ b = a + b - (a ∧ b)`. -/
def lor32 (a b : Nat) : Nat := a + b - land32 a b

/-- Rotate a 32-bit word left by `s` places (`0 < s < 32`, `a < 2 ^ 32`). -/
def rotl32 (s a : Nat) : Nat := a * 2 ^ s % 4294967296 + a / 2 ^ (32 - s)

/-! ## MD5 (RFC 1321), as used by `hashlib.md5` in `k8s_client.py` -/

/-- The 64 MD5 sine-derived constants `K[i] = ⌊|sin (i+1)| · 2^32⌋`. -/
def md5K : List Nat :=
  [3614090360, 3905402710, 606105819, 3250441966, 4118548399, 1200080426,
   2821735955, 4249261313, 1770035416, 2336552879, 4294925233, 2304563134,
   1804603682, 4254626195, 2792965006, 1236535329, 4129170786, 3225465664,
   643717713, 3921069994, 3593408605, 38016083, 3634488961, 3889429448,
   568446438, 3275163606, 4107603335, 1163531501, 2850285829, 4243563512,
   1735328473, 2368359562, 4294588738, 2272392833, 1839030562, 4259657740,
   2763975236, 1272893353, 4139469664, 3200236656, 681279174, 3936430074,
   3572445317, 76029189, 3654602809, 3873151461, 530742520, 3299628645,
   4096336452, 1126891415, 2878612391, 4237533241, 1700485571, 2399980690,
   4293915773, 2240044497, 1873313359, 4264355552, 2734768916, 1309151649,
   4149444226, 3174756917, 718787259, 3951481745]

/-- The MD5 per-round left-rotation amounts. -/
def md5S : List Nat :=
  [7, 12, 17, 22, 7, 12, 17, 22, 7, 12, 17, 22, 7, 12, 17, 22,
   5, 9, 14, 20, 5, 9, 14, 20, 5, 9, 14, 20, 5, 9, 14, 20,
   4, 11, 16, 23, 4, 11, 16, 23, 4, 11, 16, 23, 4, 11, 16, 23,
   6, 10, 15, 21, 6, 10, 15, 21, 6, 10, 15, 21, 6, 10, 15, 21]

/-- The MD5 round function `F`/`G`/`H`/`I`, selected by the round index.
In rounds 1 and 2 the two conjuncts are bitwise disjoint, so OR is `+`. -/
def md5F (i b c d : Nat) : Nat :=
  if i < 16 then land32 b c + land32 (lnot32 b) d
  else if i < 32 then land32 d b + land32 (lnot32 d) c
  else if i < 48 then lxor32 b (lxor32 c d)
  else lxor32 c (lor32 b (lnot32 d))

/-- The MD5 message-word index used in round `i`. -/
def md5G (i : Nat) : Nat :=
  if i < 16 then i
  else if i < 32 then (5 * i + 1) % 16
  else if i < 48 then (3 * i + 5) % 16
  else 7 * i % 16

/-- One MD5 round on the state quadruple. -/
def md5Round (M : List Nat) (st : Nat × Nat × Nat × Nat) (i : Nat) :
    Nat × Nat × Nat × Nat :=
  match st with
  | (a, b, c, d) =>
    let f := (md5F i b c d + a + md5K.getD i 0 + M.getD (md5G i) 0) % 4294967296
    (d, (b + rotl32 (md5S.getD i 0) f) % 4294967296, b, c)

/-- Process one 16-word chunk, adding the round output to the incoming state. -/
def md5Chunk (st : Nat × Nat × Nat × Nat) (M : List Nat) :
    Nat × Nat × Nat × Nat :=
  match st, (List.range 64).foldl (md5Round M) st with
  | (a0, b0, c0, d0), (a, b, c, d) =>
    ((a0 + a) % 4294967296, (b0 + b) % 4294967296,
     (c0 + c) % 4294967296, (d0 + d) % 4294967296)

/-- Group a byte list into 32-bit little-endian words. -/
def toWords : List Nat → List Nat
  | b0 :: b1 :: b2 :: b3 :: rest =>
      (b0 + 256 * b1 + 65536 * b2 + 16777216 * b3) :: toWords rest
  | _ => []

/-- Little-endian byte rendering of `v` with width `k` bytes. -/
def leBytes : Nat → Nat → List Nat
  | 0, _ => []
  | k + 1, v => v % 256 :: leBytes k (v / 256)

/-- MD5 padding: a `0x80` byte, zero bytes to 56 mod 64, then the bit length
as a 64-bit little-endian quantity. -/
def md5Pad (bs : List Nat) : List Nat :=
  bs ++ 128 :: List.replicate ((119 - bs.length % 64) % 64) 0
     ++ leBytes 8 (8 * bs.length)

/-- Split a (padded) byte list into 64-byte chunks of 16 words, with fuel. -/
def chunks64 : Nat → List Nat → List (List Nat)
  | 0, _ => []
  | _, [] => []
  | f + 1, l => toWords (l.take 64) :: chunks64 f (l.drop 64)

/-- The 16-byte MD5 digest of a byte list. -/
def md5Digest (msg : List Nat) : List Nat :=
  let padded := md5Pad msg
  match (chunks64 (padded.length + 1) padded).foldl md5Chunk
      (1732584193, 4023233417, 2562383102, 271733878) with
  | (a, b, c, d) => leBytes 4 a ++ leBytes 4 b ++ leBytes 4 c ++ leBytes 4 d

/-- Lowercase hexadecimal digit. -/
def hexDigit (n : Nat) : Char :=
  if n < 10 then Char.ofNat (48 + n) else Char.ofNat (87 + n)

/-- Two-character lowercase hexadecimal rendering of a byte. -/
def byteHex (b : Nat) : List Char := [hexDigit (b / 16), hexDigit (b % 16)]

/-- UTF-8 encoding of one character (following the Python encode method). -/
def utf8Bytes (c : Char) : List Nat :=
  let n := c.toNat
  if n < 128 then [n]
  else if n < 2048 then [192 + n / 64, 128 + n % 64]
  else if n < 65536 then [224 + n / 4096, 128 + n / 64 % 64, 128 + n % 64]
  else [240 + n / 262144, 128 + n / 4096 % 64, 128 + n / 64 % 64, 128 + n % 64]

/-- UTF-8 byte sequence of a string. -/
def strBytes (s : String) : List Nat :=
  s.data.foldr (fun c acc => utf8Bytes c ++ acc) []

/-- `hashlib.md5(s.encode()).hexdigest()`: the 32-character lowercase
hexadecimal MD5 digest of the UTF-8 encoding of `s`. -/
def md5HexOfString (s : String) : String :=
  ⟨(md5Digest (strBytes s)).foldr (fun b acc => byteHex b ++ acc) []⟩

/-! ## Python semantics helpers -/

/-- Python `a or b` on two optional strings, where `None` and `""` are falsy
(used for `src_meta.inner_uid or src_meta.outer_email` and
`new_resource_preset or "mi300x-1"`). -/
def pyOrOpt (a b : Option String) : Option String :=
  match a with
  | some s => if s = "" then b else some s
  | none => b

/-- Python `a or d` where `a` is an optional string and `d` a default
(so `None` and `""` both fall back to `d`). -/
def pyOrD (a : Option String) (d : String) : String :=
  match a with
  | some s => if s = "" then d else s
  | none => d

/-- Rendering of an optional string inside a Python f-string: `None` prints
as `"None"`. -/
def pyStr (o : Option String) : String :=
  match o with
  | some s => s
  | none => "None"

/-- ASCII whitespace, as the Python int constructor strips. -/
def isPySpace (c : Char) : Bool :=
  c = ' ' ∨ c = '\t' ∨ c = '\n' ∨ c = '\r'

/-- Numeric value of a pure (non-empty) ASCII digit sequence. -/
def digitsVal : List Char → Option Nat
  | [] => none
  | cs =>
    if cs.all Char.isDigit then
      some (cs.foldl (fun acc c => 10 * acc + (c.toNat - 48)) 0)
    else none

/-- Model of the Python int constructor on strings: strips surrounding whitespace,
accepts an optional sign followed by ASCII digits, and rejects everything
else with `ValueError` (`none`).  (Underscore digit grouping and non-ASCII
digits, which the repository never uses, are not modelled.) -/
def pyInt (s : String) : Option Int :=
  let cs := ((s.data.dropWhile isPySpace).reverse.dropWhile isPySpace).reverse
  match cs with
  | '+' :: rest => (digitsVal rest).map Int.ofNat
  | '-' :: rest => (digitsVal rest).map (fun n => -(n : Int))
  | rest => (digitsVal rest).map Int.ofNat

/-- Python `int(s / 60)` for an integer `s` (seconds to whole minutes, or
minutes to whole hours): true division followed by truncation toward
zero. -/
def minutesOf (s : Int) : Int := if 0 ≤ s then s / 60 else -(-s / 60)

/-- Python `int(n / 2)` for an integer `n`: true division followed by
truncation toward zero. -/
def pyHalf (n : Int) : Int := if 0 ≤ n then n / 2 else -(-n / 2)

/-- Python `str.lower()` (ASCII case folding; the e-mails the repository
hashes are ASCII). -/
def pyLower (s : String) : String := ⟨s.data.map Char.toLower⟩

/-- Python isdigit (nonempty and all digits), used on
`SERVICE_HOST.replace(".", "")` to choose the URL scheme. -/
def pyIsDigit (s : String) : Bool :=
  !s.data.isEmpty && s.data.all Char.isDigit

/-! ## Data model (`app/models.py`) -/

/-- `models.ResourceSpec`: resource specification for instances.  Field
defaults are those of the pydantic model. -/
structure ResourceSpec where
  gpu_type : String := "cpu"
  gpu_count : Int := 0
  cpu_cores : String := "4"
  memory : String := "16Gi"
  storage : String := "50Gi"
deriving Repr, DecidableEq

/-- `models.ResourcePreset`: a named, catalogued resource configuration. -/
structure ResourcePreset where
  id : String
  name : String
  description : String := ""
  spec : ResourceSpec
  available : Bool := true
deriving Repr, DecidableEq

/-- `models.SrcMeta`: provenance metadata of a sandbox request (the `extra`
map is never read by the lifecycle manager and is omitted). -/
structure SrcMeta where
  src : String
  outer_email : Option String := none
  inner_uid : Option String := none
deriving Repr, DecidableEq

/-- `models.SpaceRequest`: request to create a Space instance. -/
structure SpaceRequest where
  repo_url : String
  start_command : String
  src_meta : SrcMeta
  resource_preset : String := "mi300x-1"
  docker_image : Option String := none
  conda_env : Option String := none
  custom_port : Option Int := none
  env_vars : List (String × String) := []
  branch : String := "main"
deriving Repr, DecidableEq

/-- `models.GenericNotebookRequest`: request to create a generic Notebook. -/
structure GenericNotebookRequest where
  notebook_url : String
  src_meta : SrcMeta
  resource_preset : String := "mi300x-1"
  docker_image : Option String := none
  conda_env : Option String := none
deriving Repr, DecidableEq

/-! ## Settings (`app/config.py`, with its environment-variable defaults) -/

/-- `Settings.SPACE_LABEL_PREFIX` default. -/
def SPACE_LABEL_PREFIX : String := "amd-oneclick-space"

/-- `Settings.NOTEBOOK_LABEL_PREFIX` default. -/
def NOTEBOOK_LABEL_PREFIX : String := "amd-oneclick-notebook"

/-- `Settings.SERVICE_HOST` default. -/
def SERVICE_HOST : String := "ocr.oneclickamd.ai"

/-- `Settings.NOTEBOOK_TOKEN` default. -/
def NOTEBOOK_TOKEN : String := "amd-oneclick"

/-- `Settings.NOTEBOOK_PORT` default. -/
def NOTEBOOK_PORT : Int := 8888

/-- `Settings.SPACE_DEFAULT_PORT` default. -/
def SPACE_DEFAULT_PORT : Int := 7860

/-- `Settings.DEFAULT_SPACE_IMAGE` default. -/
def DEFAULT_SPACE_IMAGE : String := "rocm/vllm-dev:nightly_main_20260125"

/-- `Settings.DEFAULT_NOTEBOOK_IMAGE` default. -/
def DEFAULT_NOTEBOOK_IMAGE : String := "rocm/vllm-dev:nightly_main_20260125"

/-- `Settings.AVAILABLE_IMAGES`. -/
def AVAILABLE_IMAGES : List (String × String) :=
  [("default", "rocm/vllm-dev:nightly_main_20260125"),
   ("pytorch", "rocm/pytorch:rocm7.2_ubuntu24.04_py3.12_pytorch_release_2.7.1"),
   ("paddleocr", "docker.io/vivienfanghua/vllm_paddle:ppocr-oneclick"),
   ("vllm", "rocm/vllm-dev:nightly_main_20260125")]

/-- `Settings.get_image_url`: `AVAILABLE_IMAGES.get(image_key, image_key)` —
an unknown key falls back to the key itself. -/
def get_image_url (image_key : String) : String :=
  match AVAILABLE_IMAGES.lookup image_key with
  | some url => url
  | none => image_key

/-- `Settings.RESOURCE_PRESETS`: the immutable preset catalog.  Each spec is
written with the anonymous constructor in declaration order
`⟨gpu_type, gpu_count, cpu_cores, memory, storage⟩`. -/
def RESOURCE_PRESETS : List (String × ResourcePreset) :=
  [("cpu-free",
    ⟨"cpu-free", "Free CPU", "CPU-only instance, free tier",
     ⟨"cpu", 0, "4", "8Gi", "20Gi"⟩, true⟩),
   ("mi300x-1",
    ⟨"mi300x-1", "AMD MI300X x1", "Single MI300X GPU with 128 CPU cores",
     ⟨"mi300x", 1, "64", "128Gi", "100Gi"⟩, true⟩),
   ("mi300x-2",
    ⟨"mi300x-2", "AMD MI300X x2", "Dual MI300X GPUs with 128 CPU cores",
     ⟨"mi300x", 2, "128", "256Gi", "200Gi"⟩, true⟩),
   ("mi300x-4",
    ⟨"mi300x-4", "AMD MI300X x4", "4x MI300X GPUs with 256 CPU cores",
     ⟨"mi300x", 4, "256", "512Gi", "500Gi"⟩, true⟩),
   ("mi300x-8",
    ⟨"mi300x-8", "AMD MI300X x8", "8x MI300X GPUs with 512 CPU cores",
     ⟨"mi300x", 8, "512", "1024Gi", "1000Gi"⟩, true⟩),
   ("mi355x-1",
    ⟨"mi355x-1", "AMD MI355X x1", "Single MI355X GPU",
     ⟨"mi355x", 1, "64", "128Gi", "100Gi"⟩, false⟩),
   ("mi355x-2",
    ⟨"mi355x-2", "AMD MI355X x2", "Dual MI355X GPUs",
     ⟨"mi355x", 2, "128", "256Gi", "200Gi"⟩, false⟩),
   ("mi355x-4",
    ⟨"mi355x-4", "AMD MI355X x4", "4x MI355X GPUs",
     ⟨"mi355x", 4, "256", "512Gi", "500Gi"⟩, false⟩),
   ("mi355x-8",
    ⟨"mi355x-8", "AMD MI355X x8", "8x MI355X GPUs",
     ⟨"mi355x", 8, "512", "1024Gi", "1000Gi"⟩, false⟩),
   ("r7900-1",
    ⟨"r7900-1", "AMD Radeon R7900 x1", "Single R7900 GPU",
     ⟨"r7900", 1, "16", "32Gi", "50Gi"⟩, false⟩),
   ("r7900-2",
    ⟨"r7900-2", "AMD Radeon R7900 x2", "Dual R7900 GPUs",
     ⟨"r7900", 2, "32", "64Gi", "100Gi"⟩, false⟩),
   ("r7900-4",
    ⟨"r7900-4", "AMD Radeon R7900 x4", "4x R7900 GPUs",
     ⟨"r7900", 4, "64", "128Gi", "200Gi"⟩, false⟩)]

/-- `Settings.get_resource_preset`: dictionary lookup by preset id. -/
def get_resource_preset (preset_id : String) : Option ResourcePreset :=
  RESOURCE_PRESETS.lookup preset_id

/-- `Settings.GPU_RESOURCE_NAMES` as `Settings.get_gpu_resource_name`:
`GPU_RESOURCE_NAMES.get(gpu_type)` (the `"cpu"` entry maps to `None`,
unknown keys also give `None`). -/
def get_gpu_resource_name (gpu_type : String) : Option String :=
  if gpu_type = "mi300x" ∨ gpu_type = "mi355x" ∨ gpu_type = "r7900" then
    some "amd.com/gpu"
  else none

/-- `Settings.GPU_NODE_SELECTORS` as `Settings.get_node_selector`:
`GPU_NODE_SELECTORS.get(gpu_type, {})`. -/
def get_node_selector (gpu_type : String) : List (String × String) :=
  if gpu_type = "mi300x" ∨ gpu_type = "mi355x" ∨ gpu_type = "r7900" then
    [("doks.digitalocean.com/gpu-model", gpu_type)]
  else []

/-! ## Identity derivation (`K8sClient._generate_*`) -/

/-- `K8sClient._generate_instance_id`: content-addressed legacy notebook id
from the case-folded e-mail. -/
def generate_instance_id (email : String) : String :=
  "nb-" ++ (md5HexOfString (pyLower email)).take 8

/-- The seed string hashed by `K8sClient._generate_space_id`:
`f"{src_meta.src}:{src_meta.inner_uid or src_meta.outer_email}:{repo_url}"`. -/
def spaceIdKey (repo_url : String) (m : SrcMeta) : String :=
  m.src ++ ":" ++ pyStr (pyOrOpt m.inner_uid m.outer_email) ++ ":" ++ repo_url

/-- `K8sClient._generate_space_id`: deterministic Space id derived from the
`(src, inner_uid-or-outer_email, repo_url)` triple. -/
def generate_space_id (repo_url : String) (m : SrcMeta) : String :=
  "aideploy-space-" ++ (md5HexOfString (spaceIdKey repo_url m)).take 8

/-! ## Resource helpers (`K8sClient._get_resource_spec_from_preset`,
`_build_resource_requirements`, `_build_node_selector`, `_build_tolerations`)
-/

/-- `K8sClient._get_resource_spec_from_preset`: preset lookup with the
hard-coded fallback spec (`config.Settings` does define
`get_resource_preset`, so the `hasattr` probe succeeds). -/
def get_resource_spec_from_preset (preset_id : String) : ResourceSpec :=
  match get_resource_preset preset_id with
  | some preset => preset.spec
  | none => ⟨"mi300x", 1, "64", "128Gi", "100Gi"⟩

/-- The `{limits, requests}` pair built for a container. -/
structure ResourceRequirements where
  limits : List (String × String)
  requests : List (String × String)
deriving Repr, DecidableEq

/-- `K8sClient._build_resource_requirements`.  The CPU request is
`str(int(int(resource_spec.cpu_cores) / 2))`; the inner int conversion
raises `ValueError` (here `none`) when `cpu_cores` is not an integer
numeral.  When `gpu_count > 0` a GPU entry is appended to both limits and
requests, keyed by `get_gpu_resource_name(gpu_type) or "amd.com/gpu"`. -/
def build_resource_requirements (spec : ResourceSpec) :
    Option ResourceRequirements :=
  match pyInt spec.cpu_cores with
  | none => none
  | some n =>
    let gpuEntries :=
      if spec.gpu_count > 0 then
        [(pyOrD (get_gpu_resource_name spec.gpu_type) "amd.com/gpu",
          toString spec.gpu_count)]
      else []
    some { limits := [("cpu", spec.cpu_cores), ("memory", spec.memory)]
             ++ gpuEntries,
           requests := [("cpu", toString (pyHalf n)), ("memory", spec.memory)]
             ++ gpuEntries }

/-- `K8sClient._build_node_selector` (the `hasattr` probe for
`get_node_selector` succeeds on `config.Settings`, so the settings mapping
is returned; it depends only on `gpu_type`). -/
def build_node_selector (spec : ResourceSpec) : List (String × String) :=
  get_node_selector spec.gpu_type

/-- The single toleration appended for GPU specs, as a key/value record. -/
def gpuToleration : List (String × String) :=
  [("key", "amd.com/gpu"), ("operator", "Exists"), ("effect", "NoSchedule")]

/-- `K8sClient._build_tolerations`: a GPU toleration exactly when
`gpu_count > 0`. -/
def build_tolerations (spec : ResourceSpec) : List (List (String × String)) :=
  if spec.gpu_count > 0 then [gpuToleration] else []

/-! ## Cluster state

The orchestrator object store is the sole system of record; we model it as
an explicit value threaded through each operation.  A pod carries the
metadata the manager reads back (name, labels, annotations, creation time),
its observed status, its log lines, and the container resources/image from
the manifest.  A log line is modelled as the parse result of its leading
timestamp token (`datetime.fromisoformat` on the first whitespace-separated
token; `none` when that parse raises `ValueError`). -/

/-- One line of `read_namespaced_pod_log(..., timestamps=True)` output. -/
structure LogLine where
  ts : Option Int := none
deriving Repr, DecidableEq

/-- `V1ContainerStateWaiting`. -/
structure WaitingState where
  reason : Option String := none
deriving Repr, DecidableEq

/-- `V1ContainerState`: `waiting` is the optional waiting record, `running`
models whether `state.running` is set. -/
structure ContainerState where
  waiting : Option WaitingState := none
  running : Bool := false
deriving Repr, DecidableEq

/-- `V1ContainerStatus` (the fields the manager reads). -/
structure ContainerStatus where
  ready : Bool := false
  state : ContainerState := {}
deriving Repr, DecidableEq

/-- `V1PodStatus` (the fields the manager reads). -/
structure PodStatus where
  phase : Option String := none
  container_statuses : List ContainerStatus := []
deriving Repr, DecidableEq

/-- A compute-unit object as stored by the orchestrator. -/
structure Pod where
  name : String
  labels : List (String × String) := []
  annotations : List (String × String) := []
  creation_timestamp : Option Int := none
  status : PodStatus := {}
  logLines : List LogLine := []
  image : String := ""
  resources : Option ResourceRequirements := none
deriving Repr, DecidableEq

/-- The orchestrator object store: pods and (by name) services. -/
structure ClusterState where
  pods : List Pod := []
  services : List String := []
deriving Repr, DecidableEq

/-- `read_namespaced_pod`: the pod of that name, or a 404 (`none`). -/
def findPod (st : ClusterState) (name : String) : Option Pod :=
  st.pods.find? (fun p => p.name == name)

/-- `read_namespaced_service` used as an existence check. -/
def serviceExists (st : ClusterState) (name : String) : Bool :=
  st.services.contains name

/-- `create_namespaced_pod`: 409 conflict when the name is taken. -/
def create_namespaced_pod (st : ClusterState) (pod : Pod) :
    Except Nat ClusterState :=
  match findPod st pod.name with
  | some _ => .error 409
  | none => .ok { st with pods := pod :: st.pods }

/-- `create_namespaced_service`: 409 conflict when the name is taken. -/
def create_namespaced_service (st : ClusterState) (name : String) :
    Except Nat ClusterState :=
  if st.services.contains name then .error 409
  else .ok { st with services := name :: st.services }

/-- `delete_namespaced_service`: removes the service or reports 404.  (In
this state-determined model the only API error a deletion can produce is
the 404 for an absent object.) -/
def delete_namespaced_service (st : ClusterState) (name : String) :
    Except Nat ClusterState :=
  if st.services.contains name then
    .ok { st with services := st.services.filter (fun s => s != name) }
  else .error 404

/-- `delete_namespaced_pod`: removes the pod or reports 404. -/
def delete_namespaced_pod (st : ClusterState) (name : String) :
    Except Nat ClusterState :=
  if st.pods.any (fun p => p.name == name) then
    .ok { st with pods := st.pods.filter (fun p => p.name != name) }
  else .error 404

/-- A deletion call issued against the orchestrator, for order-of-deletion
reasoning. -/
inductive K8sAction where
  | delService (name : String)
  | delPod (name : String)
deriving Repr, DecidableEq

/-- Result of a bulk delete: whether anything was actually removed, the new
store, and the ordered deletion calls that were issued. -/
structure DeleteOutcome where
  removed : Bool
  state : ClusterState
  trace : List K8sAction
deriving Repr, DecidableEq

/-- One `try: delete_namespaced_service ... except ApiException` block: the
404 for an absent object is tolerated and leaves the store unchanged;
returns whether the call actually removed the object. -/
def tryDeleteService (st : ClusterState) (name : String) :
    Bool × ClusterState :=
  match delete_namespaced_service st name with
  | .ok st1 => (true, st1)
  | .error _ => (false, st)

/-- One `try: delete_namespaced_pod ... except ApiException` block. -/
def tryDeletePod (st : ClusterState) (name : String) : Bool × ClusterState :=
  match delete_namespaced_pod st name with
  | .ok st1 => (true, st1)
  | .error _ => (false, st)

/-- `K8sClient.delete_space`: deletes the service then the pod; a 404 on
either is tolerated (`deleted` stays unchanged); returns whether at least
one object was actually removed. -/
def delete_space (st : ClusterState) (space_id : String) : DeleteOutcome :=
  let svc := tryDeleteService st ("space-" ++ space_id)
  let pd := tryDeletePod svc.2 space_id
  { removed := svc.1 || pd.1, state := pd.2,
    trace := [.delService ("space-" ++ space_id), .delPod space_id] }

/-- `K8sClient.delete_instance_by_id`: deletes the current-style service,
the legacy-style service, then the pod, tolerating 404s throughout, and
returns whether anything was actually removed. -/
def delete_instance_by_id (st : ClusterState) (instance_id : String) :
    DeleteOutcome :=
  let svc := tryDeleteService st ("notebook-" ++ instance_id)
  let legacy := tryDeleteService svc.2 (instance_id ++ "-svc")
  let pd := tryDeletePod legacy.2 instance_id
  { removed := svc.1 || legacy.1 || pd.1, state := pd.2,
    trace := [.delService ("notebook-" ++ instance_id),
              .delService (instance_id ++ "-svc"), .delPod instance_id] }

/-! ## URLs and views -/

/-- The URL scheme choice shared by `_build_url` and `_build_space_url`:
`"https" if not settings.SERVICE_HOST.replace(".", "").isdigit() else
"http"`. -/
def urlScheme : String :=
  if pyIsDigit ⟨SERVICE_HOST.data.filter (fun c => c != '.')⟩ then "http"
  else "https"

/-- `K8sClient._build_url`: notebook URL via the shared reverse proxy, with
an optional direct-open notebook path (whose final path component is the
file name). -/
def build_url (instance_id : String) (notebook_path : Option String) :
    String :=
  match notebook_path with
  | some path =>
    if path = "" then
      urlScheme ++ "://" ++ SERVICE_HOST ++ "/instance/" ++ instance_id ++
        "/lab?token=" ++ NOTEBOOK_TOKEN
    else
      urlScheme ++ "://" ++ SERVICE_HOST ++ "/instance/" ++ instance_id ++
        "/lab/tree/" ++ ((path.splitOn "/").getLastD path) ++ "?token=" ++
        NOTEBOOK_TOKEN
  | none =>
    urlScheme ++ "://" ++ SERVICE_HOST ++ "/instance/" ++ instance_id ++
      "/lab?token=" ++ NOTEBOOK_TOKEN

/-- `K8sClient._build_space_url`. -/
def build_space_url (space_id : String) : String :=
  urlScheme ++ "://" ++ SERVICE_HOST ++ "/space/" ++ space_id ++ "/"

/-- `pod.status.phase.lower() if pod.status.phase else "unknown"` (an empty
phase string is falsy in Python). -/
def phaseOrUnknown (p : PodStatus) : String :=
  match p.phase with
  | some s => if s = "" then "unknown" else pyLower s
  | none => "unknown"

/-- The dictionary `K8sClient.get_space` returns. -/
structure SpaceView where
  id : String
  repo_url : String
  start_command : String
  src : String
  src_email : String
  src_uid : String
  status : String
  created_at : Option Int
  url : Option String
  branch : String
  gpu_type : String
deriving Repr, DecidableEq

/-- `K8sClient.get_space`: reads the pod of that name, rejects pods whose
`instance-type` label is not `"space"`, and derives the user-facing fields
from labels/annotations; the service is read only to decide whether a URL
can be offered. -/
def get_space (st : ClusterState) (space_id : String) : Option SpaceView :=
  match findPod st space_id with
  | none => none
  | some pod =>
    if pod.labels.lookup "instance-type" = some "space" then
      some { id := space_id,
             repo_url := (pod.annotations.lookup "amd-oneclick/repo-url").getD "",
             start_command :=
               (pod.annotations.lookup "amd-oneclick/start-command").getD "",
             src := (pod.annotations.lookup "amd-oneclick/src").getD "",
             src_email := (pod.annotations.lookup "amd-oneclick/src-email").getD "",
             src_uid := (pod.annotations.lookup "amd-oneclick/src-uid").getD "",
             status := phaseOrUnknown pod.status,
             created_at := pod.creation_timestamp,
             url := if serviceExists st ("space-" ++ space_id) then
                 some (build_space_url space_id)
               else none,
             branch := (pod.annotations.lookup "amd-oneclick/branch").getD "main",
             gpu_type := (pod.labels.lookup "gpu-type").getD "unknown" }
    else none

/-- The dictionary `K8sClient.get_instance_by_id` returns (the fields the
manager reads back; purely presentational entries are omitted). -/
structure NotebookView where
  id : String
  email : String
  status : String
  created_at : Option Int
  url : Option String
  github_path : Option String
deriving Repr, DecidableEq

/-- `K8sClient.get_instance_by_id`: reads the pod, derives fields from
annotations, and offers a URL only when the service exists.  (The source
formats `pod.status.phase.lower()` unconditionally here; a phase is always
present on a stored pod, and an absent phase is rendered as `""`.) -/
def get_instance_by_id (st : ClusterState) (instance_id : String) :
    Option NotebookView :=
  match findPod st instance_id with
  | none => none
  | some pod =>
    some { id := instance_id,
           email := (pod.annotations.lookup "amd-oneclick/email").getD "unknown",
           status := pyLower ((pod.status.phase).getD ""),
           created_at := pod.creation_timestamp,
           url := if serviceExists st ("notebook-" ++ instance_id) then
               some (build_url instance_id
                 (pod.annotations.lookup "amd-oneclick/github-path"))
             else none,
           github_path := pod.annotations.lookup "amd-oneclick/github-path" }

/-! ## Space manifests and creation -/

/-- The image chosen by `_get_space_pod_manifest`: a falsy request image
falls back to `DEFAULT_SPACE_IMAGE`; otherwise it is resolved through
`settings.get_image_url` (whose unknown-key fallback is the key itself),
with a final `or image` guard. -/
def space_pod_image (r : SpaceRequest) : String :=
  match r.docker_image with
  | none => DEFAULT_SPACE_IMAGE
  | some img =>
    if img = "" then DEFAULT_SPACE_IMAGE
    else pyOrD (some (get_image_url img)) img

/-- `request.custom_port or settings.SPACE_DEFAULT_PORT` (`0` is falsy). -/
def pyOrPort (a : Option Int) (d : Int) : Int :=
  match a with
  | some p => if p = 0 then d else p
  | none => d

/-- The pod object a Space manifest produces, restricted to the fields the
manager later reads back (name, labels, annotations, image, resources);
the newly created pod is recorded with creation time `now` and phase
`Pending`, which the orchestrator assigns on admission.  The embedded
startup script, ports, env and volumes do not feed any claim and are not
carried. -/
def space_pod_meta (now : Int) (space_id : String) (r : SpaceRequest)
    (spec : ResourceSpec) (reqs : ResourceRequirements) : Pod :=
  { name := space_id,
    labels := [("app", SPACE_LABEL_PREFIX), ("instance-type", "space"),
               ("instance-id", space_id), ("src", r.src_meta.src),
               ("gpu-type", spec.gpu_type)],
    annotations :=
      [("amd-oneclick/type", "space"),
       ("amd-oneclick/created-at", toString now),
       ("amd-oneclick/src", r.src_meta.src),
       ("amd-oneclick/src-email", r.src_meta.outer_email.getD ""),
       ("amd-oneclick/src-uid", r.src_meta.inner_uid.getD ""),
       ("amd-oneclick/repo-url", r.repo_url),
       ("amd-oneclick/start-command", r.start_command),
       ("amd-oneclick/branch", r.branch)],
    creation_timestamp := some now,
    status := { phase := some "Pending" },
    image := space_pod_image r,
    resources := some reqs }

/-- `K8sClient._get_space_pod_manifest`: building the manifest fails
(`ValueError`, here `none`) exactly when `_build_resource_requirements`
does; otherwise it yields the pod object above. -/
def space_pod_manifest (now : Int) (space_id : String) (r : SpaceRequest)
    (spec : ResourceSpec) : Option Pod :=
  match build_resource_requirements spec with
  | none => none
  | some reqs => some (space_pod_meta now space_id r spec reqs)

/-- An error escaping a create call: a propagated `ApiException` status or
the `ValueError` of the CPU quantity conversion. -/
inductive CreateErr where
  | api (code : Nat)
  | valueError
deriving Repr, DecidableEq

/-- The dictionary `K8sClient.create_space` returns on the creation path. -/
structure SpaceCreated where
  id : String
  repo_url : String
  start_command : String
  src_meta : SrcMeta
  resource_spec : ResourceSpec
  status : String
  url : String
  created_at : Int
  docker_image : String
  conda_env : Option String
  custom_port : Int
  env_vars : List (String × String)
  branch : String
deriving Repr, DecidableEq

/-- What `create_space` hands back: the existing sandbox (unchanged) or the
record of a fresh creation. -/
inductive CreateSpaceResult where
  | existing (v : SpaceView)
  | created (c : SpaceCreated)
deriving Repr, DecidableEq

/-- `K8sClient.create_space`: derives the id, resolves the preset, returns
the existing sandbox when `get_space` already finds one, and otherwise
creates the pod and then the service (a service-creation failure rolls the
pod back via `delete_space` and re-raises; errors abort, so the
rolled-back store is not observed by the caller). -/
def create_space (now : Int) (st : ClusterState) (r : SpaceRequest) :
    Except CreateErr (CreateSpaceResult × ClusterState) :=
  let space_id := generate_space_id r.repo_url r.src_meta
  let spec := get_resource_spec_from_preset r.resource_preset
  match get_space st space_id with
  | some v => .ok (.existing v, st)
  | none =>
    match space_pod_manifest now space_id r spec with
    | none => .error .valueError
    | some pod =>
      match create_namespaced_pod st pod with
      | .error c => .error (.api c)
      | .ok st1 =>
        match create_namespaced_service st1 ("space-" ++ space_id) with
        | .error c => .error (.api c)
        | .ok st2 =>
          .ok (.created
            { id := space_id, repo_url := r.repo_url,
              start_command := r.start_command, src_meta := r.src_meta,
              resource_spec := spec, status := "pending",
              url := build_space_url space_id, created_at := now,
              docker_image := pod.image, conda_env := r.conda_env,
              custom_port := pyOrPort r.custom_port SPACE_DEFAULT_PORT,
              env_vars := r.env_vars, branch := r.branch }, st2)

/-! ## Status normalization (`get_pod_status`, `get_space_status`)

`K8sClient._check_jupyter_ready` is a time-bounded TCP connect to the
sandbox ClusterIP service (timeout 2.0 s); its outcome is a network effect
and enters the pure normalizer as the boolean `probeOk`. -/

/-- The body of `K8sClient.get_pod_status` on a found pod: the notebook
status normalizer.  A ready primary container is trusted only after the
TCP probe (`ready` / `jupyter_starting`); a waiting container maps its
reason (falling back to `"waiting"` when the reason is falsy); a running
but not ready container is `running`; otherwise the lowercased phase. -/
def normalize_pod_status (probeOk : Bool) (pod : Pod) : String :=
  let phase := phaseOrUnknown pod.status
  match pod.status.container_statuses with
  | [] => phase
  | cs :: _ =>
    if cs.ready then
      if probeOk then "ready" else "jupyter_starting"
    else
      match cs.state.waiting with
      | some w =>
        let reason := pyOrD w.reason "waiting"
        if reason = "ContainerCreating" ∨ reason = "PodInitializing" then
          "initializing"
        else if reason = "ImagePullBackOff" then "failed"
        else "loading"
      | none => if cs.state.running then "running" else phase

/-- `K8sClient.get_pod_status`: resolves the instance id (a falsy
`instance_id` argument falls back to the e-mail hash), reads the pod
(404 ⇒ `none`) and normalizes. -/
def get_pod_status (probeOk : Bool) (st : ClusterState) (email : String)
    (instance_id : Option String) : Option String :=
  let iid := pyOrD instance_id (generate_instance_id email)
  (findPod st iid).map (normalize_pod_status probeOk)

/-- The body of `K8sClient.get_space_status` on a found pod: identical to
the notebook normalizer except that a ready container returns `"ready"`
immediately — no readiness probe is performed for Spaces. -/
def normalize_space_status (pod : Pod) : String :=
  let phase := phaseOrUnknown pod.status
  match pod.status.container_statuses with
  | [] => phase
  | cs :: _ =>
    if cs.ready then "ready"
    else
      match cs.state.waiting with
      | some w =>
        let reason := pyOrD w.reason "waiting"
        if reason = "ContainerCreating" ∨ reason = "PodInitializing" then
          "initializing"
        else if reason = "ImagePullBackOff" then "failed"
        else "loading"
      | none => if cs.state.running then "running" else phase

/-- `K8sClient.get_space_status`. -/
def get_space_status (st : ClusterState) (space_id : String) :
    Option String :=
  (findPod st space_id).map normalize_space_status

/-! ## Activity, listing and reclamation -/

/-- `K8sClient.check_pod_activity`: derives the legacy id from the e-mail,
reads the pod log (an `ApiException`, e.g. no such pod, gives `None`),
takes the last line and parses its leading timestamp; an unparseable or
missing timestamp gives `None`. -/
def check_pod_activity (st : ClusterState) (email : String) : Option Int :=
  match findPod st (generate_instance_id email) with
  | none => none
  | some pod =>
    match pod.logLines.getLast? with
    | none => none
    | some line => line.ts

/-- `int(uptime_delta.total_seconds() / 60)` for a pod with a creation
timestamp, else `0`. -/
def uptimeMinutes (now : Int) (created : Option Int) : Int :=
  match created with
  | some t => minutesOf (now - t)
  | none => 0

/-- An entry of `K8sClient.list_instances` (the fields the reclamation loop
and the admin view read; purely presentational entries are omitted). -/
structure InstanceListItem where
  id : String
  email : String
  status : String
  uptime_minutes : Int
  url : Option String
deriving Repr, DecidableEq

/-- `K8sClient.list_instances`: pods carrying the notebook `app` label,
joined with uptime and service-derived URL. -/
def list_instances (now : Int) (st : ClusterState) : List InstanceListItem :=
  (st.pods.filter
      (fun p => p.labels.lookup "app" == some NOTEBOOK_LABEL_PREFIX)).map
    fun pod =>
      let iid := (pod.labels.lookup "instance-id").getD "unknown"
      { id := iid,
        email := (pod.annotations.lookup "amd-oneclick/email").getD "unknown",
        status := phaseOrUnknown pod.status,
        uptime_minutes := uptimeMinutes now pod.creation_timestamp,
        url := if serviceExists st ("notebook-" ++ iid) then
            some (build_url iid
              (pod.annotations.lookup "amd-oneclick/github-path"))
          else none }

/-- An entry of `K8sClient.list_spaces` (the fields the reclamation loop
and the admin view read). -/
structure SpaceListItem where
  id : String
  repo_url : String
  src : String
  status : String
  uptime_minutes : Int
  url : Option String
  gpu_type : String
deriving Repr, DecidableEq

/-- `K8sClient.list_spaces`: pods carrying the space `app` label. -/
def list_spaces (now : Int) (st : ClusterState) : List SpaceListItem :=
  (st.pods.filter
      (fun p => p.labels.lookup "app" == some SPACE_LABEL_PREFIX)).map
    fun pod =>
      let sid := (pod.labels.lookup "instance-id").getD "unknown"
      { id := sid,
        repo_url := (pod.annotations.lookup "amd-oneclick/repo-url").getD "",
        src := (pod.annotations.lookup "amd-oneclick/src").getD "",
        status := phaseOrUnknown pod.status,
        uptime_minutes := uptimeMinutes now pod.creation_timestamp,
        url := if serviceExists st ("space-" ++ sid) then
            some (build_space_url sid)
          else none,
        gpu_type := (pod.labels.lookup "gpu-type").getD "unknown" }

/-- The per-instance reclamation decision inside
`K8sClient.cleanup_idle_instances` (`maxLifetimeHours` and
`idleTimeoutMinutes` are `settings.MAX_LIFETIME_HOURS` and
`settings.IDLE_TIMEOUT_MINUTES`; `lastActivity` is the
`check_pod_activity` result).  Returns the deletion reason, or `none` to
leave the sandbox alone this cycle.  First match wins: the lifetime rule,
then — only for `running` instances with a parsed activity timestamp — the
idle rule. -/
def should_delete_instance (maxLifetimeHours idleTimeoutMinutes : Int)
    (now : Int) (uptime_minutes : Int) (status : String)
    (lastActivity : Option Int) : Option String :=
  if uptime_minutes ≥ 60 * maxLifetimeHours then
    some ("exceeded max lifetime (" ++ toString maxLifetimeHours ++ "h)")
  else if status = "running" then
    match lastActivity with
    | some t =>
      if now - t ≥ 60 * idleTimeoutMinutes then
        some ("idle for " ++ toString (minutesOf (now - t)) ++ " minutes")
      else none
    | none => none
  else none

/-- A record of one reclaimed notebook sandbox. -/
structure CleanedRecord where
  id : String
  email : String
  reason : String
deriving Repr, DecidableEq

/-- One iteration of the `K8sClient.cleanup_idle_instances` loop: apply the
policy to one listed instance, delete it on a match, and report it when
the deletion actually removed something. -/
def instance_sweep_step (maxLifetimeHours idleTimeoutMinutes now : Int)
    (acc : List CleanedRecord × ClusterState) (inst : InstanceListItem) :
    List CleanedRecord × ClusterState :=
  match should_delete_instance maxLifetimeHours idleTimeoutMinutes now
      inst.uptime_minutes inst.status (check_pod_activity acc.2 inst.email)
    with
  | none => acc
  | some reason =>
    let out := delete_instance_by_id acc.2 inst.id
    if out.removed then
      (acc.1 ++ [⟨inst.id, inst.email, reason⟩], out.state)
    else (acc.1, out.state)

/-- `K8sClient.cleanup_idle_instances`: snapshots the instance list, then
sweeps it with the per-instance policy.  Errors cannot halt the sweep
(deletion is total in this model, matching the per-instance try/log
behaviour of the source). -/
def cleanup_idle_instances (maxLifetimeHours idleTimeoutMinutes : Int)
    (now : Int) (st : ClusterState) : List CleanedRecord × ClusterState :=
  (list_instances now st).foldl
    (instance_sweep_step maxLifetimeHours idleTimeoutMinutes now) ([], st)

/-- The per-space reclamation decision inside
`K8sClient.cleanup_idle_spaces`: only the max-lifetime rule is evaluated —
there is no idle-timeout check for Spaces. -/
def should_delete_space (maxLifetimeHours : Int) (uptime_minutes : Int) :
    Option String :=
  if uptime_minutes ≥ 60 * maxLifetimeHours then
    some ("exceeded max lifetime (" ++ toString maxLifetimeHours ++ "h)")
  else none

/-- A record of one reclaimed Space sandbox. -/
structure SpaceCleanedRecord where
  id : String
  repo_url : String
  reason : String
deriving Repr, DecidableEq

/-- One iteration of the `K8sClient.cleanup_idle_spaces` loop. -/
def space_sweep_step (maxLifetimeHours : Int)
    (acc : List SpaceCleanedRecord × ClusterState) (sp : SpaceListItem) :
    List SpaceCleanedRecord × ClusterState :=
  match should_delete_space maxLifetimeHours sp.uptime_minutes with
  | none => acc
  | some reason =>
    let out := delete_space acc.2 sp.id
    if out.removed then
      (acc.1 ++ [⟨sp.id, sp.repo_url, reason⟩], out.state)
    else (acc.1, out.state)

/-- `K8sClient.cleanup_idle_spaces`. -/
def cleanup_idle_spaces (maxLifetimeHours : Int) (now : Int)
    (st : ClusterState) : List SpaceCleanedRecord × ClusterState :=
  (list_spaces now st).foldl (space_sweep_step maxLifetimeHours) ([], st)

/-- The aggregate `K8sClient.cleanup_all_idle` returns. -/
structure CleanupAllResult where
  notebooks : List CleanedRecord
  spaces : List SpaceCleanedRecord
deriving Repr, DecidableEq

/-- `K8sClient.cleanup_all_idle`: runs the notebook sweep, then the Space
sweep on the resulting store, aggregating both result lists. -/
def cleanup_all_idle (maxLifetimeHours idleTimeoutMinutes : Int) (now : Int)
    (st : ClusterState) : CleanupAllResult × ClusterState :=
  let nb := cleanup_idle_instances maxLifetimeHours idleTimeoutMinutes now st
  let sp := cleanup_idle_spaces maxLifetimeHours now nb.2
  ({ notebooks := nb.1, spaces := sp.1 }, sp.2)

/-! ## Generic notebook creation and forking -/

/-- The dictionary `K8sClient.create_generic_notebook` returns. -/
structure NotebookCreated where
  id : String
  notebook_url : String
  src_meta : SrcMeta
  resource_spec : ResourceSpec
  status : String
  url : String
  created_at : Int
  docker_image : String
  conda_env : Option String
deriving Repr, DecidableEq

/-- The image chosen by `_get_generic_notebook_pod_manifest` (same shape as
the Space image choice, with the notebook default). -/
def notebook_pod_image (r : GenericNotebookRequest) : String :=
  match r.docker_image with
  | none => DEFAULT_NOTEBOOK_IMAGE
  | some img =>
    if img = "" then DEFAULT_NOTEBOOK_IMAGE
    else pyOrD (some (get_image_url img)) img

/-- `K8sClient._get_generic_notebook_pod_manifest`, restricted to the
fields the manager reads back (see `space_pod_manifest`). -/
def generic_notebook_pod_manifest (now : Int) (instance_id : String)
    (r : GenericNotebookRequest) (spec : ResourceSpec) : Option Pod :=
  match build_resource_requirements spec with
  | none => none
  | some reqs =>
    some { name := instance_id,
           labels := [("app", NOTEBOOK_LABEL_PREFIX),
                      ("instance-type", "notebook"),
                      ("instance-id", instance_id), ("src", r.src_meta.src),
                      ("gpu-type", spec.gpu_type)],
           annotations :=
             [("amd-oneclick/type", "notebook"),
              ("amd-oneclick/created-at", toString now),
              ("amd-oneclick/src", r.src_meta.src),
              ("amd-oneclick/src-email", r.src_meta.outer_email.getD ""),
              ("amd-oneclick/src-uid", r.src_meta.inner_uid.getD ""),
              ("amd-oneclick/notebook-url", r.notebook_url)],
           creation_timestamp := some now,
           status := { phase := some "Pending" },
           image := notebook_pod_image r,
           resources := some reqs }

/-- `K8sClient.create_generic_notebook`: every call gets a fresh random id
(`_generate_notebook_id` draws from `uuid4`; the drawn id enters this pure
model as the argument `freshId`), creates the pod, then the service
(rolling the pod back and re-raising on a service failure). -/
def create_generic_notebook (freshId : String) (now : Int)
    (st : ClusterState) (r : GenericNotebookRequest) :
    Except CreateErr (NotebookCreated × ClusterState) :=
  let spec := get_resource_spec_from_preset r.resource_preset
  match generic_notebook_pod_manifest now freshId r spec with
  | none => .error .valueError
  | some pod =>
    match create_namespaced_pod st pod with
    | .error c => .error (.api c)
    | .ok st1 =>
      match create_namespaced_service st1 ("notebook-" ++ freshId) with
      | .error c => .error (.api c)
      | .ok st2 =>
        .ok ({ id := freshId, notebook_url := r.notebook_url,
               src_meta := r.src_meta, resource_spec := spec,
               status := "pending", url := build_url freshId none,
               created_at := now, docker_image := pod.image,
               conda_env := r.conda_env }, st2)

/-- `K8sClient.fork_space`: reads the source Space (absent ⇒ `None`),
re-reads its pod, and issues a fresh `create_space` with the original
launch parameters, the caller-supplied `SrcMeta`, and
`new_resource_preset or "mi300x-1"`. -/
def fork_space (now : Int) (st : ClusterState) (space_id : String)
    (new_src_meta : SrcMeta) (new_resource_preset : Option String) :
    Option (Except CreateErr (CreateSpaceResult × ClusterState)) :=
  match get_space st space_id with
  | none => none
  | some original =>
    match findPod st space_id with
    | none => none
    | some _pod =>
      some (create_space now st
        { repo_url := original.repo_url,
          start_command := original.start_command,
          src_meta := new_src_meta,
          resource_preset := pyOrD new_resource_preset "mi300x-1",
          branch := original.branch })

/-- `K8sClient.fork_notebook`: reads the source Notebook (absent ⇒ `None`),
re-reads its pod, refuses legacy notebooks whose annotations carry no
recorded `notebook-url` (falsy ⇒ `None`), and otherwise issues a fresh
`create_generic_notebook`. -/
def fork_notebook (freshId : String) (now : Int) (st : ClusterState)
    (instance_id : String) (new_src_meta : SrcMeta)
    (new_resource_preset : Option String) :
    Option (Except CreateErr (NotebookCreated × ClusterState)) :=
  match get_instance_by_id st instance_id with
  | none => none
  | some _original =>
    match findPod st instance_id with
    | none => none
    | some pod =>
      let notebook_url :=
        (pod.annotations.lookup "amd-oneclick/notebook-url").getD ""
      if notebook_url = "" then none
      else
        some (create_generic_notebook freshId now st
          { notebook_url := notebook_url, src_meta := new_src_meta,
            resource_preset := pyOrD new_resource_preset "mi300x-1" })

/-- Extracts whether a fork/create outcome is the *existing* sandbox with
the given id (used to state claims about forks resolving to the original
object). -/
def isExistingWithId
    (r : Option (Except CreateErr (CreateSpaceResult × ClusterState)))
    (i : String) : Bool :=
  match r with
  | some (.ok (.existing v, _)) => v.id == i
  | _ => false

/-- The status normalizer as the specification words it (spec §4.5 /
claim C2), written independently of the source for comparison: ready ⇒
probe, probe failure ⇒ the kind-specific starting label
(`jupyter_starting` for Notebooks, `app_starting` for Spaces); waiting ⇒
`initializing`/`failed`/`loading` by reason; running-but-not-ready ⇒
`running`; no container status ⇒ the phase.  (The spec does not cover a
present-but-terminated container; that case mirrors the phase fallback.)
-/
def spec_status_normalizer (probeOk : Bool) (startingLabel : String)
    (pod : Pod) : String :=
  match pod.status.container_statuses with
  | [] => phaseOrUnknown pod.status
  | cs :: _ =>
    if cs.ready then
      if probeOk then "ready" else startingLabel
    else
      match cs.state.waiting with
      | some w =>
        let reason := pyOrD w.reason "waiting"
        if reason = "ContainerCreating" ∨ reason = "PodInitializing" then
          "initializing"
        else if reason = "ImagePullBackOff" then "failed"
        else "loading"
      | none => if cs.state.running then "running" else phaseOrUnknown pod.status

/-- A ready primary container. -/
def readyCS : ContainerStatus := { ready := true }

/-- A Space compute-unit snapshot whose primary container reports ready. -/
def readySpacePod : Pod :=
  { name := "aideploy-space-00000000",
    status := { phase := some "Running", container_statuses := [readyCS] } }

/-- A waiting primary container with the given reason. -/
def waitingCS (reason : Option String) : ContainerStatus :=
  { ready := false, state := { waiting := some { reason := reason } } }

/-- A snapshot whose primary container waits with the given reason. -/
def podWaiting (reason : Option String) : Pod :=
  { name := "nb-00000000",
    status := { phase := some "Pending",
                container_statuses := [waitingCS reason] } }

/-- A running-but-not-ready primary container. -/
def runningCS : ContainerStatus :=
  { ready := false, state := { running := true } }

/-- A snapshot whose primary container runs but is not ready. -/
def podRunning : Pod :=
  { name := "nb-00000000",
    status := { phase := some "Running",
                container_statuses := [runningCS] } }

/-- A snapshot with no container status yet. -/
def podBare : Pod :=
  { name := "nb-00000000", status := { phase := some "Pending" } }

/-- A young (1 hour old) but long-idle running Space pod: its last log
line is from creation time. -/
def idleSpacePod : Pod :=
  { name := "aideploy-space-11111111",
    labels := [("app", SPACE_LABEL_PREFIX), ("instance-type", "space"),
               ("instance-id", "aideploy-space-11111111"),
               ("src", "direct"), ("gpu-type", "mi300x")],
    annotations := [("amd-oneclick/repo-url", "https://example.com/idle.git")],
    creation_timestamp := some 0,
    status := { phase := some "Running",
                container_statuses := [runningCS] },
    logLines := [{ ts := some 0 }] }

/-- A store holding only the idle running Space and its service. -/
def idleSpaceState : ClusterState :=
  { pods := [idleSpacePod],
    services := ["space-aideploy-space-11111111"] }

/-- A Space pod seven hours past creation (beyond the 6-hour lifetime). -/
def expiredSpacePod : Pod :=
  { name := "aideploy-space-22222222",
    labels := [("app", SPACE_LABEL_PREFIX), ("instance-type", "space"),
               ("instance-id", "aideploy-space-22222222"),
               ("src", "direct"), ("gpu-type", "mi300x")],
    annotations := [("amd-oneclick/repo-url", "https://example.com/old.git")],
    creation_timestamp := some 0,
    status := { phase := some "Running" } }

/-- A store holding only the expired Space and its service. -/
def expiredSpaceState : ClusterState :=
  { pods := [expiredSpacePod],
    services := ["space-aideploy-space-22222222"] }

/-- Provenance of an original Space: identified through its
`outer_email` (no `inner_uid`). -/
def origSpaceMeta : SrcMeta := ⟨"direct", some "shared", none⟩

/-- Provenance of a fork request whose `inner_uid` differs from the
original (the original has none) but whose fallback identity component
coincides with the original e-mail. -/
def forkSpaceMeta : SrcMeta := ⟨"direct", none, some "shared"⟩

/-- The repository both the original Space and the fork target. -/
def origRepo : String := "https://example.com/repo.git"

/-- The id the manager derives for the original Space. -/
def origSpaceId : String := generate_space_id origRepo origSpaceMeta

/-- The stored pod of the original Space. -/
def origSpacePod : Pod :=
  { name := origSpaceId,
    labels := [("app", SPACE_LABEL_PREFIX), ("instance-type", "space"),
               ("instance-id", origSpaceId), ("src", "direct"),
               ("gpu-type", "mi300x")],
    annotations := [("amd-oneclick/repo-url", origRepo),
                    ("amd-oneclick/start-command", "python app.py"),
                    ("amd-oneclick/branch", "main")],
    creation_timestamp := some 0,
    status := { phase := some "Running" } }

/-- A store holding the original Space and its service. -/
def origSpaceState : ClusterState :=
  { pods := [origSpacePod], services := ["space-" ++ origSpaceId] }

/-- A legacy notebook pod created before source URLs were recorded: its
annotations carry no `amd-oneclick/notebook-url`. -/
def legacyNotebookPod : Pod :=
  { name := "nb-12345678",
    labels := [("app", NOTEBOOK_LABEL_PREFIX),
               ("instance-id", "nb-12345678")],
    annotations := [("amd-oneclick/email", "user@example.com")],
    creation_timestamp := some 0,
    status := { phase := some "Running" } }

/-- A store holding the legacy notebook and its service. -/
def legacyNotebookState : ClusterState :=
  { pods := [legacyNotebookPod], services := ["notebook-nb-12345678"] }

/-- A first Space request whose origin is an inner uid. -/
def witnessReq1 : SpaceRequest :=
  { repo_url := "https://example.com/repo.git",
    start_command := "python app.py",
    src_meta := ⟨"direct", some "ignored@example.com", some "u1"⟩ }

/-- A second Space request with the identical
`(src, inner_uid-or-outer_email, repo_url)` triple but different
incidental fields. -/
def witnessReq2 : SpaceRequest :=
  { repo_url := "https://example.com/repo.git",
    start_command := "python serve.py",
    src_meta := ⟨"direct", none, some "u1"⟩,
    resource_preset := "cpu-free" }

/-! ## Theorems -/

/-- RFC 1321 test vector: digest of the empty string (sanity anchor for the
MD5 implementation underlying identity derivation). -/
theorem md5HexOfString_empty :
    md5HexOfString "" = "d41d8cd98f00b204e9800998ecf8427e" := by decide

/-- RFC 1321 test vector: digest of `"abc"`. -/
theorem md5HexOfString_abc :
    md5HexOfString "abc" = "900150983cd24fb0d6963f7d28e17f72" := by decide

/-- C7: preset resolution never fails the caller — it is a total function
that returns the spec of a known preset and the hard-coded default spec
(`mi300x`, 1 GPU, 64 cores, 128Gi, 100Gi) for an unknown id. -/
theorem preset_resolution_spec (preset_id : String) :
    (∀ p, get_resource_preset preset_id = some p →
      get_resource_spec_from_preset preset_id = p.spec) ∧
    (get_resource_preset preset_id = none →
      get_resource_spec_from_preset preset_id =
        ⟨"mi300x", 1, "64", "128Gi", "100Gi"⟩) := by
  constructor
  · intro p hp
    simp [get_resource_spec_from_preset, hp]
  · intro hp
    simp [get_resource_spec_from_preset, hp]

/-- Witness for C7: a known id resolves to its catalog spec, an unknown id
resolves to the default spec. -/
theorem preset_resolution_spec_witness :
    get_resource_spec_from_preset "mi300x-2" =
      ⟨"mi300x", 2, "128", "256Gi", "200Gi"⟩ ∧
    get_resource_spec_from_preset "no-such-preset" =
      ⟨"mi300x", 1, "64", "128Gi", "100Gi"⟩ :=
  ⟨(preset_resolution_spec "mi300x-2").1
      ⟨"mi300x-2", "AMD MI300X x2", "Dual MI300X GPUs with 128 CPU cores",
       ⟨"mi300x", 2, "128", "256Gi", "200Gi"⟩, true⟩ (by decide),
   (preset_resolution_spec "no-such-preset").2 (by decide)⟩

/-- C10: building resource requirements is total exactly on specs whose
`cpu_cores` is an integer numeral string; any other CPU quantity string
(such as the Kubernetes-style `"500m"` or `"0.5"`, which `ResourceSpec`
admits) makes `int(cpu_cores)` raise, so the build returns no value. -/
theorem cpu_quantity_precondition :
    (∀ (spec : ResourceSpec) (n : Int), pyInt spec.cpu_cores = some n →
      ∃ r, build_resource_requirements spec = some r) ∧
    (∀ spec : ResourceSpec, pyInt spec.cpu_cores = none →
      build_resource_requirements spec = none) ∧
    pyInt "500m" = none ∧ pyInt "0.5" = none ∧ pyInt "64" = some 64 := by
  refine ⟨?_, ?_, by decide, by decide, by decide⟩
  · intro spec n h
    simp [build_resource_requirements, h]
  · intro spec h
    simp [build_resource_requirements, h]

/-- Witness for C10: an integer-numeral CPU quantity builds, a milli-CPU
quantity string fails. -/
theorem cpu_quantity_precondition_witness :
    (∃ r, build_resource_requirements ⟨"cpu", 0, "64", "16Gi", "50Gi"⟩ =
      some r) ∧
    build_resource_requirements ⟨"cpu", 0, "500m", "16Gi", "50Gi"⟩ = none :=
  ⟨cpu_quantity_precondition.1 ⟨"cpu", 0, "64", "16Gi", "50Gi"⟩ 64 (by decide),
   cpu_quantity_precondition.2.1 ⟨"cpu", 0, "500m", "16Gi", "50Gi"⟩ (by decide)⟩

/-- The GPU resource key is always `"amd.com/gpu"`: every known GPU type
maps there and the unknown-type fallback is the same name. -/
theorem gpu_resource_key (t : String) :
    pyOrD (get_gpu_resource_name t) "amd.com/gpu" = "amd.com/gpu" := by
  by_cases h : t = "mi300x" ∨ t = "mi355x" ∨ t = "r7900" <;>
    simp [get_gpu_resource_name, pyOrD, h]

/-- C3: for a spec whose CPU quantity parses to a non-negative integer,
the built requirements set CPU/memory limits to the spec values, the CPU
request to `⌊cpu/2⌋`, the memory request to the memory limit, and carry a
GPU entry (keyed through the type-to-resource-name mapping, quantity
`gpu_count`) in both limits and requests exactly when `gpu_count > 0`. -/
theorem resource_requirements_spec (spec : ResourceSpec) (n : Int)
    (hparse : pyInt spec.cpu_cores = some n) (hn : 0 ≤ n) :
    ∃ r, build_resource_requirements spec = some r ∧
      r.limits.lookup "cpu" = some spec.cpu_cores ∧
      r.limits.lookup "memory" = some spec.memory ∧
      r.requests.lookup "cpu" = some (toString (n / 2)) ∧
      r.requests.lookup "memory" = some spec.memory ∧
      r.limits.lookup (pyOrD (get_gpu_resource_name spec.gpu_type)
          "amd.com/gpu") =
        (if spec.gpu_count > 0 then some (toString spec.gpu_count)
         else none) ∧
      r.requests.lookup (pyOrD (get_gpu_resource_name spec.gpu_type)
          "amd.com/gpu") =
        (if spec.gpu_count > 0 then some (toString spec.gpu_count)
         else none) := by
  rw [gpu_resource_key]
  by_cases hg : spec.gpu_count > 0 <;>
    simp only [build_resource_requirements, hparse, pyHalf, hn, if_pos, hg,
      if_true, if_false, gpu_resource_key, ite_true, ite_false, gt_iff_lt,
      not_lt] <;>
  · refine ⟨_, rfl, ?_⟩
    simp [List.lookup, gpu_resource_key, hg]

/-- Witness for C3: the `mi300x-1` preset spec (64 CPU limit) yields a 32
CPU request and a single-GPU entry in both limits and requests. -/
theorem resource_requirements_spec_witness :
    ∃ r, build_resource_requirements ⟨"mi300x", 1, "64", "128Gi", "100Gi"⟩ =
        some r ∧
      r.limits.lookup "cpu" = some "64" ∧
      r.limits.lookup "memory" = some "128Gi" ∧
      r.requests.lookup "cpu" = some (toString ((64 : Int) / 2)) ∧
      r.requests.lookup "memory" = some "128Gi" ∧
      r.limits.lookup (pyOrD (get_gpu_resource_name "mi300x") "amd.com/gpu") =
        (if (1 : Int) > 0 then some (toString (1 : Int)) else none) ∧
      r.requests.lookup (pyOrD (get_gpu_resource_name "mi300x") "amd.com/gpu") =
        (if (1 : Int) > 0 then some (toString (1 : Int)) else none) :=
  resource_requirements_spec ⟨"mi300x", 1, "64", "128Gi", "100Gi"⟩ 64
    (by decide) (by decide)

/-- C8 counterexample: a `ResourceSpec` with `gpu_type = "mi300x"` but
`gpu_count = 0` (admitted by the model) still gets a non-empty node
selector pinning the GPU-model label, so the node selector is *not* empty
whenever `gpu_count = 0`. -/
theorem node_selector_gpu_count_counterexample :
    (ResourceSpec.mk "mi300x" 0 "4" "16Gi" "50Gi").gpu_count = 0 ∧
    build_node_selector ⟨"mi300x", 0, "4", "16Gi", "50Gi"⟩ =
      [("doks.digitalocean.com/gpu-model", "mi300x")] ∧
    build_node_selector ⟨"mi300x", 0, "4", "16Gi", "50Gi"⟩ ≠ [] := by decide

/-- C8 amended: the tolerations list gains the accelerator taint exactly
when `gpu_count > 0`, while the node selector is a function of `gpu_type`
alone — the GPU-model pin for the three known GPU types, empty otherwise —
independent of `gpu_count`. -/
theorem selector_tolerations_spec (spec : ResourceSpec) :
    build_tolerations spec =
      (if spec.gpu_count > 0 then [gpuToleration] else []) ∧
    build_node_selector spec =
      (if spec.gpu_type = "mi300x" ∨ spec.gpu_type = "mi355x" ∨
          spec.gpu_type = "r7900" then
        [("doks.digitalocean.com/gpu-model", spec.gpu_type)]
       else []) ∧
    (∀ c : Int, build_node_selector { spec with gpu_count := c } =
      build_node_selector spec) := by
  refine ⟨rfl, ?_, fun c => rfl⟩
  simp [build_node_selector, get_node_selector]

/-- Filtering out a name that is not present leaves a list unchanged. -/
theorem filter_ne_of_not_contains (l : List String) (n : String)
    (h : l.contains n = false) : l.filter (fun s => s != n) = l := by
  induction l with
  | nil => rfl
  | cons a t ih =>
    simp only [List.contains_cons, Bool.or_eq_false_iff] at h
    obtain ⟨h1, h2⟩ := h
    have hne : a ≠ n := fun e => by simp [e] at h1
    simp [List.filter_cons, ih h2, hne]

/-- Filtering out one name does not affect membership of a different name. -/
theorem contains_filter_ne (l : List String) (m n : String) (h : n ≠ m) :
    (l.filter (fun s => s != m)).contains n = l.contains n := by
  induction l with
  | nil => rfl
  | cons a t ih =>
    by_cases ham : a = m <;> simp_all [List.filter_cons, List.contains_cons]

/-- Filtering out a pod name not carried by any pod leaves the pod list
unchanged. -/
theorem pods_filter_of_not_any (l : List Pod) (n : String)
    (h : l.any (fun p => p.name == n) = false) :
    l.filter (fun p => p.name != n) = l := by
  induction l with
  | nil => rfl
  | cons a t ih =>
    simp only [List.any_cons, Bool.or_eq_false_iff] at h
    obtain ⟨h1, h2⟩ := h
    have hne : a.name ≠ n := fun e => by simp [e] at h1
    simp [List.filter_cons, ih h2, hne]

/-- A tolerated service deletion: the flag is the prior existence of the
service and the store drops exactly that service. -/
theorem tryDeleteService_eq (st : ClusterState) (n : String) :
    tryDeleteService st n =
      (st.services.contains n,
       { st with services := st.services.filter (fun s => s != n) }) := by
  by_cases h : n ∈ st.services
  · simp [tryDeleteService, delete_namespaced_service, h]
  · have h0 : st.services.contains n = false := by simpa using h
    simp [tryDeleteService, delete_namespaced_service, h,
      filter_ne_of_not_contains _ _ h0]

/-- A tolerated pod deletion: the flag is the prior existence of the pod
and the store drops exactly that pod. -/
theorem tryDeletePod_eq (st : ClusterState) (n : String) :
    tryDeletePod st n =
      (st.pods.any (fun p => p.name == n),
       { st with pods := st.pods.filter (fun p => p.name != n) }) := by
  by_cases h : st.pods.any (fun p => p.name == n)
  · simp [tryDeletePod, delete_namespaced_pod, h]
  · have h0 : st.pods.any (fun p => p.name == n) = false := by simpa using h
    simp [tryDeletePod, delete_namespaced_pod, h0,
      pods_filter_of_not_any _ _ h0]

/-- The legacy service name and the current-style service name of an
instance always differ (their lengths differ by 5). -/
theorem legacy_ne_notebook (id : String) :
    (id ++ "-svc") ≠ ("notebook-" ++ id) := by
  intro h
  have hlen := congrArg String.length h
  have h4 : ("-svc" : String).length = 4 := by decide
  have h9 : ("notebook-" : String).length = 9 := by decide
  rw [String.length_append, String.length_append, h4, h9] at hlen
  omega

/-- C6: both delete operations issue the endpoint deletion(s) before the
compute-unit deletion, tolerate the 404 of an already absent object,
return `true` exactly when at least one deletion actually removed an
object, remove exactly the named objects from the store, and report
`false` without raising when nothing existed. -/
theorem delete_idempotent_spec (st : ClusterState) (id : String) :
    (delete_space st id).trace =
      [.delService ("space-" ++ id), .delPod id] ∧
    (delete_space st id).removed =
      (st.services.contains ("space-" ++ id) ||
        st.pods.any (fun p => p.name == id)) ∧
    (delete_space st id).state =
      { pods := st.pods.filter (fun p => p.name != id),
        services := st.services.filter (fun s => s != ("space-" ++ id)) } ∧
    (st.services.contains ("space-" ++ id) = false →
      st.pods.any (fun p => p.name == id) = false →
      (delete_space st id).removed = false ∧
        (delete_space st id).state = st) ∧
    (delete_instance_by_id st id).trace =
      [.delService ("notebook-" ++ id), .delService (id ++ "-svc"),
       .delPod id] ∧
    (delete_instance_by_id st id).removed =
      (st.services.contains ("notebook-" ++ id) ||
        st.services.contains (id ++ "-svc") ||
        st.pods.any (fun p => p.name == id)) ∧
    (delete_instance_by_id st id).state =
      { pods := st.pods.filter (fun p => p.name != id),
        services := (st.services.filter
            (fun s => s != ("notebook-" ++ id))).filter
          (fun s => s != (id ++ "-svc")) } ∧
    (st.services.contains ("notebook-" ++ id) = false →
      st.services.contains (id ++ "-svc") = false →
      st.pods.any (fun p => p.name == id) = false →
      (delete_instance_by_id st id).removed = false ∧
        (delete_instance_by_id st id).state = st) := by
  have hleg := contains_filter_ne st.services ("notebook-" ++ id)
    (id ++ "-svc") (legacy_ne_notebook id)
  refine ⟨rfl, ?_, ?_, ?_, rfl, ?_, ?_, ?_⟩
  · simp [delete_space, tryDeleteService_eq, tryDeletePod_eq]
  · simp [delete_space, tryDeleteService_eq, tryDeletePod_eq]
  · intro h1 h2
    have hm1 : ("space-" ++ id) ∉ st.services := by simpa using h1
    simp [delete_space, tryDeleteService_eq, tryDeletePod_eq, hm1, h2,
      filter_ne_of_not_contains _ _ h1, pods_filter_of_not_any _ _ h2]
  · simp [delete_instance_by_id, tryDeleteService_eq, tryDeletePod_eq,
      hleg, legacy_ne_notebook id]
  · simp [delete_instance_by_id, tryDeleteService_eq, tryDeletePod_eq]
  · intro h1 h2 h3
    have hm1 : ("notebook-" ++ id) ∉ st.services := by simpa using h1
    have hm2 : (id ++ "-svc") ∉ st.services := by simpa using h2
    simp [delete_instance_by_id, tryDeleteService_eq, tryDeletePod_eq, hm1,
      hm2, h3, hleg, filter_ne_of_not_contains _ _ h1,
      filter_ne_of_not_contains _ _ h2, pods_filter_of_not_any _ _ h3]

/-- Witness for C6: deleting a wholly nonexistent id (on an empty store)
reports that nothing was removed and leaves the store unchanged, for both
sandbox kinds. -/
theorem delete_idempotent_spec_witness :
    ((delete_space ⟨[], []⟩ "nope").removed = false ∧
      (delete_space ⟨[], []⟩ "nope").state = ⟨[], []⟩) ∧
    ((delete_instance_by_id ⟨[], []⟩ "nope").removed = false ∧
      (delete_instance_by_id ⟨[], []⟩ "nope").state = ⟨[], []⟩) :=
  ⟨(delete_idempotent_spec ⟨[], []⟩ "nope").2.2.2.1 rfl rfl,
   (delete_idempotent_spec ⟨[], []⟩ "nope").2.2.2.2.2.2.2 rfl rfl rfl⟩

/-- C4: the per-sandbox reclamation decision, first match wins.  A sandbox
at or beyond the lifetime bound is deleted (inclusive boundary).
Otherwise, only a `running` sandbox with a parsed last-activity timestamp
is deleted for idleness, again with an inclusive boundary; a `pending`
sandbox is never deleted for idleness, and without a parseable log
timestamp the sandbox is left alone for the cycle. -/
theorem qdiv60_ge (a b : Int) : ((a : ℚ) / 60 ≥ (b : ℚ)) ↔ a ≥ 60 * b := by
  rw [ge_iff_le, le_div_iff₀ (by norm_num : (0 : ℚ) < 60), mul_comm]
  constructor <;> intro h <;> exact_mod_cast h

theorem reclamation_policy_spec (H T now u : Int) (status : String)
    (la : Option Int) :
    ((u : ℚ) / 60 ≥ (H : ℚ) →
      should_delete_instance H T now u status la =
        some ("exceeded max lifetime (" ++ toString H ++ "h)")) ∧
    (¬ ((u : ℚ) / 60 ≥ (H : ℚ)) → status = "running" → ∀ t, la = some t →
      ((now - t : Int) : ℚ) / 60 ≥ (T : ℚ) →
      should_delete_instance H T now u status la =
        some ("idle for " ++ toString (minutesOf (now - t)) ++ " minutes")) ∧
    (¬ ((u : ℚ) / 60 ≥ (H : ℚ)) → status = "running" → ∀ t, la = some t →
      ¬ (((now - t : Int) : ℚ) / 60 ≥ (T : ℚ)) →
      should_delete_instance H T now u status la = none) ∧
    (¬ ((u : ℚ) / 60 ≥ (H : ℚ)) → status = "pending" →
      should_delete_instance H T now u status la = none) ∧
    (¬ ((u : ℚ) / 60 ≥ (H : ℚ)) → la = none →
      should_delete_instance H T now u status la = none) := by
  refine ⟨?_, ?_, ?_, ?_, ?_⟩
  · intro h
    rw [qdiv60_ge] at h
    simp [should_delete_instance, h]
  · intro h hs t hla hidle
    subst hla hs
    rw [qdiv60_ge] at h hidle
    simp [should_delete_instance, h, hidle]
  · intro h hs t hla hidle
    subst hla hs
    rw [qdiv60_ge] at h hidle
    simp [should_delete_instance, h, hidle]
  · intro h hs
    subst hs
    rw [qdiv60_ge] at h
    simp [should_delete_instance, h]
  · intro h hla
    subst hla
    rw [qdiv60_ge] at h
    by_cases hs : status = "running" <;> simp [should_delete_instance, h, hs]

/-- Witness for C4, exercising both inclusive boundaries, the
never-idle-reclaimed `pending` status, and the missing-timestamp case:
uptime exactly `60 · H` minutes is deleted; a running sandbox idle exactly
`T` minutes is deleted; a pending sandbox idle far beyond the bound is
kept; a running sandbox without a parsed timestamp is kept. -/
theorem reclamation_policy_spec_witness :
    should_delete_instance 6 10 0 360 "pending" none =
      some ("exceeded max lifetime (" ++ toString (6 : Int) ++ "h)") ∧
    should_delete_instance 6 10 600 100 "running" (some 0) =
      some ("idle for " ++ toString (minutesOf (600 - 0)) ++ " minutes") ∧
    should_delete_instance 6 10 540 100 "running" (some 0) = none ∧
    should_delete_instance 6 10 1000000 100 "pending" (some 0) = none ∧
    should_delete_instance 6 10 600 100 "running" none = none :=
  ⟨(reclamation_policy_spec 6 10 0 360 "pending" none).1 (by norm_num),
   (reclamation_policy_spec 6 10 600 100 "running" (some 0)).2.1
     (by norm_num) rfl 0 rfl (by norm_num),
   (reclamation_policy_spec 6 10 540 100 "running" (some 0)).2.2.1
     (by norm_num) rfl 0 rfl (by norm_num),
   (reclamation_policy_spec 6 10 1000000 100 "pending" (some 0)).2.2.2.1
     (by norm_num) rfl,
   (reclamation_policy_spec 6 10 600 100 "running" none).2.2.2.2
     (by norm_num) rfl⟩

/-- C2 counterexample: on a Space snapshot whose container reports ready,
`get_space_status` returns `"ready"` unconditionally — it consults no
readiness probe at all and can never produce the claimed `"app_starting"`
(a string that occurs nowhere in the source), diverging from the claimed
normalizer when the probe would fail. -/
theorem space_ready_probe_counterexample :
    normalize_space_status readySpacePod = "ready" ∧
    spec_status_normalizer false "app_starting" readySpacePod =
      "app_starting" ∧
    normalize_space_status readySpacePod ≠
      spec_status_normalizer false "app_starting" readySpacePod := by decide

/-- C2 amended: for Notebook status the ready case is probe-gated
(`ready`/`jupyter_starting`), while for Space status a ready container is
reported `ready` immediately with no probe; the waiting reasons map
ContainerCreating/PodInitializing ⇒ `initializing`, ImagePullBackOff ⇒
`failed`, anything else ⇒ `loading`; running-but-not-ready ⇒ `running`;
and with no container status the raw phase is lowercased — identically for
both normalizers, which are pure functions of the snapshot (and, for
Notebooks, the probe outcome). -/
theorem status_normalization_cases (probeOk : Bool) (pod : Pod)
    (cs : ContainerStatus) (rest : List ContainerStatus) :
    (pod.status.container_statuses = cs :: rest → cs.ready = true →
      normalize_pod_status probeOk pod =
        (if probeOk then "ready" else "jupyter_starting") ∧
      normalize_space_status pod = "ready") ∧
    (pod.status.container_statuses = cs :: rest → cs.ready = false →
      ∀ w, cs.state.waiting = some w →
        ((w.reason = some "ContainerCreating" ∨
            w.reason = some "PodInitializing" →
          normalize_pod_status probeOk pod = "initializing" ∧
          normalize_space_status pod = "initializing") ∧
        (w.reason = some "ImagePullBackOff" →
          normalize_pod_status probeOk pod = "failed" ∧
          normalize_space_status pod = "failed") ∧
        (w.reason ≠ some "ContainerCreating" →
          w.reason ≠ some "PodInitializing" →
          w.reason ≠ some "ImagePullBackOff" →
          normalize_pod_status probeOk pod = "loading" ∧
          normalize_space_status pod = "loading"))) ∧
    (pod.status.container_statuses = cs :: rest → cs.ready = false →
      cs.state.waiting = none → cs.state.running = true →
      normalize_pod_status probeOk pod = "running" ∧
      normalize_space_status pod = "running") ∧
    (pod.status.container_statuses = [] → ∀ p, pod.status.phase = some p →
      p ≠ "" →
      normalize_pod_status probeOk pod = pyLower p ∧
      normalize_space_status pod = pyLower p) := by
  refine ⟨?_, ?_, ?_, ?_⟩
  · intro h hready
    constructor <;>
      simp [normalize_pod_status, normalize_space_status, h, hready]
  · intro h hready w hw
    refine ⟨?_, ?_, ?_⟩
    · rintro (h1 | h1) <;>
        (constructor <;>
          simp [normalize_pod_status, normalize_space_status, h, hready, hw,
            h1, pyOrD])
    · intro h1
      constructor <;>
        simp [normalize_pod_status, normalize_space_status, h, hready, hw,
          h1, pyOrD]
    · intro h1 h2 h3
      rcases hww : w.reason with _ | r
      · constructor <;>
          simp [normalize_pod_status, normalize_space_status, h, hready, hw,
            hww, pyOrD]
      · rw [hww] at h1 h2 h3
        have hr1 : r ≠ "ContainerCreating" := fun e => h1 (by rw [e])
        have hr2 : r ≠ "PodInitializing" := fun e => h2 (by rw [e])
        have hr3 : r ≠ "ImagePullBackOff" := fun e => h3 (by rw [e])
        by_cases hre : r = "" <;>
          (constructor <;>
            simp [normalize_pod_status, normalize_space_status, h, hready,
              hw, hww, pyOrD, hre, hr1, hr2, hr3])
  · intro h hready hw hrun
    constructor <;>
      simp [normalize_pod_status, normalize_space_status, h, hready, hw,
        hrun]
  · intro h p hp hpe
    constructor <;>
      simp [normalize_pod_status, normalize_space_status, phaseOrUnknown, h,
        hp, hpe]

/-- Witness for C2 (amended): the ready/probe-failing notebook snapshot,
each waiting reason, the running-but-not-ready snapshot and the
no-container-status snapshot, all evaluated concretely. -/
theorem status_normalization_cases_witness :
    (normalize_pod_status false readySpacePod =
        (if false then "ready" else "jupyter_starting") ∧
      normalize_space_status readySpacePod = "ready") ∧
    (normalize_pod_status true (podWaiting (some "ContainerCreating")) =
        "initializing" ∧
      normalize_space_status (podWaiting (some "ContainerCreating")) =
        "initializing") ∧
    (normalize_pod_status true (podWaiting (some "ImagePullBackOff")) =
        "failed" ∧
      normalize_space_status (podWaiting (some "ImagePullBackOff")) =
        "failed") ∧
    (normalize_pod_status true (podWaiting (some "CrashLoopBackOff")) =
        "loading" ∧
      normalize_space_status (podWaiting (some "CrashLoopBackOff")) =
        "loading") ∧
    (normalize_pod_status true podRunning = "running" ∧
      normalize_space_status podRunning = "running") ∧
    (normalize_pod_status true podBare = pyLower "Pending" ∧
      normalize_space_status podBare = pyLower "Pending") :=
  ⟨(status_normalization_cases false readySpacePod readyCS []).1 rfl rfl,
   ((status_normalization_cases true (podWaiting (some "ContainerCreating"))
       (waitingCS (some "ContainerCreating")) []).2.1 rfl rfl
     ⟨some "ContainerCreating"⟩ rfl).1 (Or.inl rfl),
   ((status_normalization_cases true (podWaiting (some "ImagePullBackOff"))
       (waitingCS (some "ImagePullBackOff")) []).2.1 rfl rfl
     ⟨some "ImagePullBackOff"⟩ rfl).2.1 rfl,
   ((status_normalization_cases true (podWaiting (some "CrashLoopBackOff"))
       (waitingCS (some "CrashLoopBackOff")) []).2.1 rfl rfl
     ⟨some "CrashLoopBackOff"⟩ rfl).2.2 (by decide) (by decide) (by decide),
   (status_normalization_cases true podRunning runningCS []).2.2.1 rfl rfl
     rfl rfl,
   (status_normalization_cases true podBare readyCS []).2.2.2 rfl "Pending"
     rfl (by decide)⟩

/-- A deletion decision for a Space implies the lifetime bound was met. -/
theorem should_delete_space_some (H u : Int) (r : String)
    (h : should_delete_space H u = some r) : u ≥ 60 * H := by
  by_cases hc : u ≥ 60 * H
  · exact hc
  · simp [should_delete_space, hc] at h

/-- Every record the Space sweep produces (beyond the accumulator) stems
from a listed Space that met the lifetime bound — idleness is never
consulted. -/
theorem space_sweep_per_item (H : Int) (l : List SpaceListItem)
    (acc : List SpaceCleanedRecord × ClusterState) :
    ∀ rec ∈ (l.foldl (space_sweep_step H) acc).1,
      rec ∈ acc.1 ∨
        ∃ sp ∈ l, rec.id = sp.id ∧ sp.uptime_minutes ≥ 60 * H := by
  induction l generalizing acc with
  | nil => exact fun rec h => Or.inl h
  | cons x xs ih =>
    intro rec hrec
    rw [List.foldl_cons] at hrec
    rcases ih (space_sweep_step H acc x) rec hrec with hin | ⟨sp, hsp, hid, hup⟩
    · rcases hdec : should_delete_space H x.uptime_minutes with _ | reason
      · simp only [space_sweep_step, hdec] at hin
        exact Or.inl hin
      · simp only [space_sweep_step, hdec] at hin
        by_cases hrem : (delete_space acc.2 x.id).removed
        · simp only [hrem, if_true] at hin
          rcases List.mem_append.mp hin with hl | hr
          · exact Or.inl hl
          · refine Or.inr ⟨x, List.mem_cons_self x xs, ?_, ?_⟩
            · rcases List.mem_singleton.mp hr with rfl
              rfl
            · exact should_delete_space_some H x.uptime_minutes reason hdec
        · simp only [hrem, if_false] at hin
          exact Or.inl hin
    · exact Or.inr ⟨sp, List.mem_cons_of_mem x hsp, hid, hup⟩

/-- C5 counterexample: in a store whose only sandbox is a *running* Space
that has been idle for 60 minutes (far past the 10-minute idle timeout)
but is only one hour old, a combined reclamation pass deletes nothing and
leaves the store unchanged — although the very same per-sandbox data
under the Notebook policy would be deleted for idleness. -/
theorem space_idle_not_reclaimed_counterexample :
    (cleanup_all_idle 6 10 3600 idleSpaceState).1.spaces = [] ∧
    (cleanup_all_idle 6 10 3600 idleSpaceState).1.notebooks = [] ∧
    (cleanup_all_idle 6 10 3600 idleSpaceState).2 = idleSpaceState ∧
    should_delete_instance 6 10 3600 60 "running" (some 0) =
      some "idle for 60 minutes" := by decide

/-- C5 amended: the combined entry point runs the Notebook sweep
(lifetime + idle rules) and then the Space sweep and aggregates both
result lists, but the Space sweep applies *only* the max-lifetime rule: a
Space deletion decision exists exactly when the lifetime bound is met,
and every reclaimed Space met it — a running idle Space below the
lifetime bound is never reclaimed. -/
theorem cleanup_all_kinds_spec (H T now : Int) (st : ClusterState) :
    cleanup_all_idle H T now st =
      (let nb := cleanup_idle_instances H T now st
       let sp := cleanup_idle_spaces H now nb.2
       ({ notebooks := nb.1, spaces := sp.1 }, sp.2)) ∧
    (∀ u : Int,
      (∃ r, should_delete_space H u = some r) ↔ (u : ℚ) / 60 ≥ (H : ℚ)) ∧
    (∀ rec ∈ (cleanup_idle_spaces H now st).1, ∃ sp ∈ list_spaces now st,
      rec.id = sp.id ∧ (sp.uptime_minutes : ℚ) / 60 ≥ (H : ℚ)) := by
  refine ⟨rfl, ?_, ?_⟩
  · intro u
    rw [qdiv60_ge]
    by_cases h : u ≥ 60 * H <;> simp [should_delete_space, h]
  · intro rec hrec
    rw [cleanup_idle_spaces] at hrec
    rcases space_sweep_per_item H (list_spaces now st) ([], st) rec hrec with
      hin | ⟨sp, hsp, hid, hup⟩
    · simp at hin
    · exact ⟨sp, hsp, hid, (qdiv60_ge _ _).mpr hup⟩

/-- Witness for C5 (amended): a seven-hour-old Space is reclaimed by the
Space sweep, and the theorem traces its record back to a listed Space at
or beyond the lifetime bound. -/
theorem cleanup_all_kinds_spec_witness :
    (∃ sp ∈ list_spaces 25200 expiredSpaceState,
      (⟨"aideploy-space-22222222", "https://example.com/old.git",
        "exceeded max lifetime (6h)"⟩ : SpaceCleanedRecord).id = sp.id ∧
      (sp.uptime_minutes : ℚ) / 60 ≥ ((6 : Int) : ℚ)) ∧
    ((420 : Int) : ℚ) / 60 ≥ ((6 : Int) : ℚ) :=
  ⟨(cleanup_all_kinds_spec 6 10 25200 expiredSpaceState).2.2 _ (by decide),
   ((cleanup_all_kinds_spec 6 10 25200 expiredSpaceState).2.1 420).mp
     ⟨"exceeded max lifetime (6h)", by decide⟩⟩

/-- Appending to a fixed string on the left is injective. -/
theorem string_append_left_cancel {p a b : String} (h : p ++ a = p ++ b) :
    a = b := by
  apply String.ext
  have hd : p.data ++ a.data = p.data ++ b.data := by
    have hdd := congrArg String.data h
    simpa [String.data_append] using hdd
  exact List.append_cancel_left hd

/-- C9 counterexample: forking a Space under a `SrcMeta` whose `inner_uid`
differs from the original (the original identified itself by
`outer_email = "shared"`, the fork by `inner_uid = "shared"`) derives the
very same seed `src:uid-or-email:repo` and hence the same id, and the
fork call hands back the *existing* sandbox rather than a new one with a
different id. -/
theorem fork_space_same_id_counterexample :
    forkSpaceMeta.inner_uid ≠ origSpaceMeta.inner_uid ∧
    generate_space_id origRepo forkSpaceMeta =
      generate_space_id origRepo origSpaceMeta ∧
    isExistingWithId
      (fork_space 10 origSpaceState origSpaceId forkSpaceMeta none)
      origSpaceId = true := by decide

/-- C9 amended: fork of a missing Space or Notebook returns absent, and so
does fork of a legacy Notebook with no recorded source URL.  For Spaces,
the identity seed `(src, inner_uid-or-outer_email, repo_url)` is injective
in its fallback component — the *fallback value* must differ to change
the seed (an inner_uid difference alone does not suffice when the values
coincide) — and two derivations agree on the id exactly when the
truncated 8-hex-character MD5 digests of their seeds agree. -/
theorem fork_spec :
    (∀ (now : Int) (st : ClusterState) (id : String) (m : SrcMeta)
        (p : Option String), get_space st id = none →
      fork_space now st id m p = none) ∧
    (∀ (fid : String) (now : Int) (st : ClusterState) (id : String)
        (m : SrcMeta) (p : Option String),
      get_instance_by_id st id = none →
      fork_notebook fid now st id m p = none) ∧
    (∀ (fid : String) (now : Int) (st : ClusterState) (id : String)
        (m : SrcMeta) (p : Option String) (pod : Pod),
      findPod st id = some pod →
      (pod.annotations.lookup "amd-oneclick/notebook-url").getD "" = "" →
      fork_notebook fid now st id m p = none) ∧
    (∀ (repo : String) (m1 m2 : SrcMeta),
      m1.src = m2.src →
      pyStr (pyOrOpt m1.inner_uid m1.outer_email) ≠
        pyStr (pyOrOpt m2.inner_uid m2.outer_email) →
      spaceIdKey repo m1 ≠ spaceIdKey repo m2) ∧
    (∀ (repo1 repo2 : String) (m1 m2 : SrcMeta),
      generate_space_id repo1 m1 = generate_space_id repo2 m2 ↔
        (md5HexOfString (spaceIdKey repo1 m1)).take 8 =
          (md5HexOfString (spaceIdKey repo2 m2)).take 8) := by
  refine ⟨?_, ?_, ?_, ?_, ?_⟩
  · intro now st id m p h
    simp [fork_space, h]
  · intro fid now st id m p h
    simp [fork_notebook, h]
  · intro fid now st id m p pod hpod hurl
    simp [fork_notebook, get_instance_by_id, hpod, hurl]
  · intro repo m1 m2 hsrc hne heq
    apply hne
    apply String.ext
    rw [spaceIdKey, spaceIdKey, ← hsrc] at heq
    have hd := congrArg String.data heq
    simp only [String.data_append, List.append_assoc] at hd
    have hd2 := List.append_cancel_left hd
    have hd3 := List.append_cancel_left hd2
    exact List.append_cancel_right hd3
  · intro repo1 repo2 m1 m2
    constructor
    · intro h
      exact string_append_left_cancel h
    · intro h
      rw [generate_space_id, generate_space_id, h]

/-- Witness for C9 (amended): absent-source forks on concrete stores, a
no-URL legacy notebook fork, a concrete seed difference, and a concrete
id-vs-digest equivalence. -/
theorem fork_spec_witness :
    fork_space 0 ⟨[], []⟩ "missing" origSpaceMeta none = none ∧
    fork_notebook "aideploy-nb-00000000" 0 ⟨[], []⟩ "missing" origSpaceMeta
      none = none ∧
    fork_notebook "aideploy-nb-00000000" 0 legacyNotebookState "nb-12345678"
      origSpaceMeta none = none ∧
    spaceIdKey origRepo ⟨"direct", none, some "u1"⟩ ≠
      spaceIdKey origRepo ⟨"direct", none, some "u2"⟩ ∧
    (generate_space_id origRepo ⟨"direct", none, some "u1"⟩ =
        generate_space_id origRepo ⟨"direct", none, some "u2"⟩ ↔
      (md5HexOfString (spaceIdKey origRepo ⟨"direct", none, some "u1"⟩)).take 8
        = (md5HexOfString
            (spaceIdKey origRepo ⟨"direct", none, some "u2"⟩)).take 8) :=
  ⟨fork_spec.1 0 ⟨[], []⟩ "missing" origSpaceMeta none rfl,
   fork_spec.2.1 "aideploy-nb-00000000" 0 ⟨[], []⟩ "missing" origSpaceMeta
     none rfl,
   fork_spec.2.2.1 "aideploy-nb-00000000" 0 legacyNotebookState
     "nb-12345678" origSpaceMeta none legacyNotebookPod (by decide) rfl,
   fork_spec.2.2.2.1 origRepo ⟨"direct", none, some "u1"⟩
     ⟨"direct", none, some "u2"⟩ rfl (by decide),
   fork_spec.2.2.2.2 origRepo origRepo ⟨"direct", none, some "u1"⟩
     ⟨"direct", none, some "u2"⟩⟩

/-- A successful association-list lookup returns a stored value. -/
theorem lookup_mem {β : Type} (l : List (String × β)) (k : String) (b : β)
    (h : l.lookup k = some b) : ∃ kb ∈ l, kb.2 = b := by
  induction l with
  | nil => simp [List.lookup] at h
  | cons a t ih =>
    obtain ⟨k1, v⟩ := a
    simp only [List.lookup] at h
    rcases hk : (k == k1) with _ | _ <;> rw [hk] at h
    · obtain ⟨kb, hm, he⟩ := ih h
      exact ⟨kb, List.mem_cons_of_mem _ hm, he⟩
    · exact ⟨(k1, v), List.mem_cons_self _ _, by injection h⟩

/-- Every spec preset resolution can produce — the twelve catalog specs and
the hard-coded fallback — carries an integer-numeral CPU quantity. -/
theorem preset_cpu_parses (pid : String) :
    (pyInt (get_resource_spec_from_preset pid).cpu_cores).isSome := by
  rw [get_resource_spec_from_preset]
  rcases h : get_resource_preset pid with _ | p
  · decide
  · rw [get_resource_preset] at h
    obtain ⟨kb, hm, rfl⟩ := lookup_mem RESOURCE_PRESETS pid p h
    have hall : ∀ kb ∈ RESOURCE_PRESETS,
        (pyInt kb.2.spec.cpu_cores).isSome := by decide
    exact hall kb hm

/-- Resource requirements always build for a preset-resolved spec. -/
theorem preset_reqs_some (pid : String) :
    (build_resource_requirements
      (get_resource_spec_from_preset pid)).isSome := by
  have h := preset_cpu_parses pid
  rcases ho : pyInt (get_resource_spec_from_preset pid).cpu_cores with _ | n
  · rw [ho] at h
    simp at h
  · rw [build_resource_requirements.eq_def, ho]
    simp

/-- When `get_space` already finds the sandbox, `create_space` hands the
existing sandbox back with the store untouched. -/
theorem create_space_existing (now : Int) (st : ClusterState)
    (r : SpaceRequest) (v : SpaceView)
    (h : get_space st (generate_space_id r.repo_url r.src_meta) = some v) :
    create_space now st r = .ok (.existing v, st) := by
  rw [create_space.eq_def]
  simp only [h]

/-- On a store where the derived id is fresh (no pod of that name, no
service of the paired name), `create_space` creates the pod and the
service and returns the freshly-created record. -/
theorem create_space_fresh_eq (now : Int) (st : ClusterState)
    (r : SpaceRequest) (reqs : ResourceRequirements)
    (hreqs : build_resource_requirements
      (get_resource_spec_from_preset r.resource_preset) = some reqs)
    (hpod : findPod st (generate_space_id r.repo_url r.src_meta) = none)
    (hsvc : st.services.contains
      ("space-" ++ generate_space_id r.repo_url r.src_meta) = false) :
    create_space now st r = .ok (.created
      { id := generate_space_id r.repo_url r.src_meta,
        repo_url := r.repo_url, start_command := r.start_command,
        src_meta := r.src_meta,
        resource_spec := get_resource_spec_from_preset r.resource_preset,
        status := "pending",
        url := build_space_url (generate_space_id r.repo_url r.src_meta),
        created_at := now,
        docker_image := space_pod_image r, conda_env := r.conda_env,
        custom_port := pyOrPort r.custom_port SPACE_DEFAULT_PORT,
        env_vars := r.env_vars, branch := r.branch },
      { pods := space_pod_meta now (generate_space_id r.repo_url r.src_meta)
            r (get_resource_spec_from_preset r.resource_preset) reqs
          :: st.pods,
        services := ("space-" ++ generate_space_id r.repo_url r.src_meta)
          :: st.services }) := by
  have hget : get_space st (generate_space_id r.repo_url r.src_meta) =
      none := by
    simp [get_space, hpod]
  have hname : (space_pod_meta now (generate_space_id r.repo_url r.src_meta)
      r (get_resource_spec_from_preset r.resource_preset) reqs).name =
      generate_space_id r.repo_url r.src_meta := rfl
  have himg : (space_pod_meta now (generate_space_id r.repo_url r.src_meta)
      r (get_resource_spec_from_preset r.resource_preset) reqs).image =
      space_pod_image r := rfl
  rw [create_space.eq_def]
  simp only [hget, space_pod_manifest, hreqs, create_namespaced_pod, hname,
    hpod, create_namespaced_service, hsvc, Bool.false_eq_true, if_false,
    himg]

/-- Reading the Space back immediately after its creation yields the view
derived from the stored labels/annotations. -/
theorem get_space_after_create (st : ClusterState) (sid : String)
    (now : Int) (r : SpaceRequest) (spec : ResourceSpec)
    (reqs : ResourceRequirements) :
    get_space
      { pods := space_pod_meta now sid r spec reqs :: st.pods,
        services := ("space-" ++ sid) :: st.services } sid =
      some { id := sid, repo_url := r.repo_url,
             start_command := r.start_command, src := r.src_meta.src,
             src_email := r.src_meta.outer_email.getD "",
             src_uid := r.src_meta.inner_uid.getD "",
             status := "pending", created_at := some now,
             url := some (build_space_url sid), branch := r.branch,
             gpu_type := spec.gpu_type } := by
  have hst : phaseOrUnknown ⟨some "Pending", []⟩ = "pending" := by decide
  simp [get_space, findPod, space_pod_meta, serviceExists, List.lookup,
    hst]

/-- C1: the Space id is a deterministic function of the
`(src, inner_uid-or-outer_email, repo_url)` triple, and creation is
idempotent at the identity level: on a store where that id is still
fresh, the first request creates the sandbox, and a second request with
an identical triple derives the same id, finds the sandbox via
`get_space`, and hands the existing sandbox back with the store
unchanged — no error, no duplicate object. -/
theorem create_space_idempotent (r1 r2 : SpaceRequest) (st : ClusterState)
    (n1 n2 : Int)
    (htriple : (r1.src_meta.src,
        pyOrOpt r1.src_meta.inner_uid r1.src_meta.outer_email,
        r1.repo_url) =
      (r2.src_meta.src,
        pyOrOpt r2.src_meta.inner_uid r2.src_meta.outer_email,
        r2.repo_url))
    (hpod : findPod st (generate_space_id r1.repo_url r1.src_meta) = none)
    (hsvc : st.services.contains
      ("space-" ++ generate_space_id r1.repo_url r1.src_meta) = false) :
    generate_space_id r2.repo_url r2.src_meta =
      generate_space_id r1.repo_url r1.src_meta ∧
    ∃ c st1, create_space n1 st r1 = .ok (.created c, st1) ∧
      c.id = generate_space_id r1.repo_url r1.src_meta ∧
      ∃ v, get_space st1 (generate_space_id r1.repo_url r1.src_meta) =
          some v ∧
        create_space n2 st1 r2 = .ok (.existing v, st1) := by
  have ha := congrArg Prod.fst htriple
  have hbc := congrArg Prod.snd htriple
  have hb := congrArg Prod.fst hbc
  have hc := congrArg Prod.snd hbc
  simp only at ha hb hc
  have hgid : generate_space_id r2.repo_url r2.src_meta =
      generate_space_id r1.repo_url r1.src_meta := by
    rw [generate_space_id, generate_space_id, spaceIdKey, spaceIdKey,
      ← ha, ← hb, ← hc]
  refine ⟨hgid, ?_⟩
  obtain ⟨reqs, hreqs⟩ :=
    Option.isSome_iff_exists.mp (preset_reqs_some r1.resource_preset)
  have hc1 := create_space_fresh_eq n1 st r1 reqs hreqs hpod hsvc
  have hv := get_space_after_create st
    (generate_space_id r1.repo_url r1.src_meta) n1 r1
    (get_resource_spec_from_preset r1.resource_preset) reqs
  refine ⟨_, _, hc1, rfl, _, hv, ?_⟩
  exact create_space_existing n2 _ r2 _ (by rw [hgid]; exact hv)

/-- Witness for C1: two concrete requests with the same
`(src, uid, repo)` triple on an empty store — the first call creates, the
second call returns the existing sandbox with the store unchanged. -/
theorem create_space_idempotent_witness :
    generate_space_id witnessReq2.repo_url witnessReq2.src_meta =
      generate_space_id witnessReq1.repo_url witnessReq1.src_meta ∧
    ∃ c st1, create_space 5 ⟨[], []⟩ witnessReq1 = .ok (.created c, st1) ∧
      c.id = generate_space_id witnessReq1.repo_url witnessReq1.src_meta ∧
      ∃ v, get_space st1
          (generate_space_id witnessReq1.repo_url witnessReq1.src_meta) =
          some v ∧
        create_space 7 st1 witnessReq2 = .ok (.existing v, st1) :=
  create_space_idempotent witnessReq1 witnessReq2 ⟨[], []⟩ 5 7 (by decide)
    rfl rfl

end OneClick
